import Mathlib

/-!
# The firmware-update request handler of `src/update.c`

A shallow embedding of `latest_json_cb`, `get_latest_json`, `get_update_file` and
`post_update`.  Everything the C code obtains from outside the file (the parsed
request, the uci configuration, libcurl transfers, `stat`, `remove`, `popen`,
`pclose`, `fgets`, `fscanf`, allocation) is a field of the environment `Env`; the
handler is a function from that environment to the CGI response it prints and the
ordered list of operations it performs.

C strings are `String`s (their contents before the terminating NUL); a `char*`
that may be `NULL` is an `Option String`.  `long long` values are `Int`s.
-/

namespace Wiomw

/-! ## Constants (`update.c` lines 44-58) -/

/-- The macro `BASE_URL`. -/
def BASE_URL : String := "https://www.whoisonmywifi.net/hw/"

/-- The macro `LATEST_JSON_URL`. -/
def LATEST_JSON_URL : String := BASE_URL ++ "latest.json"

/-- The macro `MINIMUM_EXTRA_MEMORY` (2 MiB). -/
def MINIMUM_EXTRA_MEMORY : Int := 2097152

/-- The errno value `ENOENT`. -/
def ENOENT : Nat := 2

/-- The libcurl result code `CURLE_WRITE_ERROR`. -/
def CURLE_WRITE_ERROR : Nat := 23

/-- The three shell commands `MD5_COMMAND`, `FREE_COMMAND`, `SYSUPGRADE_COMMAND`. -/
inductive Command where
  | MD5_COMMAND
  | FREE_COMMAND
  | SYSUPGRADE_COMMAND
  deriving DecidableEq, Repr

/-- The syslog priorities used by the file. -/
inductive Severity where
  | LOG_EMERG
  | LOG_ERR
  | LOG_WARNING
  deriving DecidableEq, Repr

/-! ## yajl trees (the library's `yajl_tree.h`) -/

/-- The enum `yajl_type`. -/
inductive yajl_type where
  | yajl_t_string
  | yajl_t_number
  | yajl_t_object
  | yajl_t_array
  | yajl_t_true
  | yajl_t_false
  | yajl_t_null
  | yajl_t_any
  deriving DecidableEq, Repr

/-- A `yajl_val` node. A number keeps its `long long` reading `i` and the flag
`YAJL_NUMBER_INT_VALID`. -/
inductive YajlVal where
  | string (s : String)
  | number (i : Int) (intValid : Bool)
  | object (fields : List (String × YajlVal))
  | array (elems : List YajlVal)
  | vtrue
  | vfalse
  | vnull

/-- The field `type` of a node. -/
def YajlVal.type : YajlVal → yajl_type
  | .string _ => .yajl_t_string
  | .number _ _ => .yajl_t_number
  | .object _ => .yajl_t_object
  | .array _ => .yajl_t_array
  | .vtrue => .yajl_t_true
  | .vfalse => .yajl_t_false
  | .vnull => .yajl_t_null

/-- The first value stored under `key` (the inner `for` loop of `yajl_tree_get`). -/
def object_lookup (key : String) : List (String × YajlVal) → Option YajlVal
  | [] => none
  | (k, v) :: rest => if key = k then some v else object_lookup key rest

/-- The library function `yajl_tree_get(n, path, type)`: walk `path` through nested
objects, then check the type of the node reached. `none` is `NULL`. -/
def yajl_tree_get : Option YajlVal → List String → yajl_type → Option YajlVal
  | none, _, _ => none
  | some v, [], t =>
    if t ≠ .yajl_t_any ∧ t ≠ v.type then none else some v
  | some (.object fields), key :: rest, t =>
    match object_lookup key fields with
    | none => none
    | some v => yajl_tree_get (some v) rest t
  | some _, _ :: _, _ => none

/-- The macro `YAJL_IS_OBJECT`. -/
def YAJL_IS_OBJECT : YajlVal → Bool
  | .object _ => true
  | _ => false

/-- The macro `YAJL_GET_STRING`: the string of a string node, else `NULL`. -/
def YAJL_GET_STRING : YajlVal → Option String
  | .string s => some s
  | _ => none

/-- The macro `YAJL_GET_INTEGER`: the integer of an integer-valid number, else 0. -/
def YAJL_GET_INTEGER : YajlVal → Int
  | .number i true => i
  | _ => 0

/-! ## Responses and operations -/

/-- The value of the `update` key of a response. -/
inductive UpdateTag where
  | none
  | available
  | ready
  | complete
  deriving DecidableEq, Repr

/-- The CGI response printed by the handler: the `Status:` code and the keys of
the JSON body (`errors = []` and `none` stand for an absent key). -/
structure Response where
  status : Nat
  xsrf : String
  errors : List String
  version : Option String
  size : Option Int
  md5 : Option String
  update : Option UpdateTag
  rebooting : Bool
  deriving DecidableEq, Repr

/-- The operations the handler performs, in order. `fopen_w` is the
`fopen(UPGRADE_FILE, "w")` of `get_update_file`; `stat` and `remove` act on
`UPGRADE_FILE`. -/
inductive Event where
  | syslog (sev : Severity) (msg : String)
  | curl_perform (url : String)
  | stat
  | remove
  | popen (cmd : Command)
  | pclose
  | fopen_w
  | fclose
  deriving DecidableEq, Repr

/-- What one run of the handler does: the response (`none` when the process
dies before printing one) and the operations performed. -/
structure Result where
  response : Option Response
  trace : List Event
  deriving DecidableEq, Repr

/-- The output of `printf("%s", p)`. -/
def printf_s : Option String → String
  | some s => s
  | none => "(null)"

/-- A body `{"xsrf":..,"errors":[msg]}`. -/
def error_plain (status : Nat) (xsrf msg : String) : Response :=
  { status := status, xsrf := xsrf, errors := [msg], version := none, size := none,
    md5 := none, update := none, rebooting := false }

/-- A body `{"xsrf":..,"errors":[msg],"version":..,"size":..,"md5":..,"update":tag}`. -/
def error_echo (status : Nat) (xsrf msg : String) (lv ls lm : YajlVal) (tag : UpdateTag) :
    Response :=
  { status := status, xsrf := xsrf, errors := [msg],
    version := some (printf_s (YAJL_GET_STRING lv)),
    size := some (YAJL_GET_INTEGER ls),
    md5 := some (printf_s (YAJL_GET_STRING lm)),
    update := some tag, rebooting := false }

/-- The body `{"xsrf":..,"version":..,"size":..,"md5":..,"update":"ready"}`. -/
def ready_response (xsrf : String) (lv ls lm : YajlVal) : Response :=
  { status := 200, xsrf := xsrf, errors := [],
    version := some (printf_s (YAJL_GET_STRING lv)),
    size := some (YAJL_GET_INTEGER ls),
    md5 := some (printf_s (YAJL_GET_STRING lm)),
    update := some .ready, rebooting := false }

/-- The body `{"xsrf":..,"update":"complete","rebooting":true}`. -/
def complete_response (xsrf : String) : Response :=
  { status := 200, xsrf := xsrf, errors := [], version := none, size := none,
    md5 := none, update := some .complete, rebooting := true }

/-- The body `{"xsrf":..,"update":"none"}`. -/
def none_response (xsrf : String) : Response :=
  { status := 200, xsrf := xsrf, errors := [], version := none, size := none,
    md5 := none, update := some .none, rebooting := false }

/-! ## The environment -/

/-- One call of the libcurl write callback: `size`, `nmemb` and the bytes. -/
structure Chunk where
  size : Nat
  nmemb : Nat
  buffer : List Char

/-- The result of `stat(UPGRADE_FILE, &stat_res)`: the `st_size` read, or the errno. -/
inductive StatRes where
  | ok (st_size : Int)
  | fail (errno : Nat)
  deriving DecidableEq, Repr

/-- The width of `size_t` on the target. -/
inductive SizeT where
  | u32
  | u64
  deriving DecidableEq, Repr

/-- The number of bits of `size_t`. -/
def SizeT.bits : SizeT → Nat
  | .u32 => 32
  | .u64 => 64

/-- Everything `post_update` reads from outside `update.c`. -/
structure Env where
  /-- the parsed request body `api_yajl` (`none` is `NULL`) -/
  api_yajl : Option YajlVal
  /-- the anti-forgery token `token->val` -/
  xsrf : String
  /-- the value of `sui.system.model` (shorter than `BUFSIZ`) when the uci lookup is
  complete -/
  uci_model : Option String
  /-- the function `version_compare` of `version.h` (not in this file) -/
  version_compare : Option String → Int
  /-- the library function `yajl_tree_parse` -/
  yajl_tree_parse : String → Option YajlVal
  /-- the platform constant `BUFSIZ` -/
  BUFSIZ : Nat
  /-- the width of `size_t` -/
  size_t : SizeT
  /-- the write-callback calls libcurl makes while fetching `latest.json` -/
  json_chunks : List Chunk
  /-- whether the `malloc`/`realloc` of the k-th callback call succeeds -/
  json_alloc_ok : Nat → Bool
  /-- the code of `curl_easy_perform` for `latest.json` when no callback aborts it -/
  json_perform : Nat
  /-- the code of `curl_easy_getinfo` for `latest.json` -/
  json_getinfo : Nat
  /-- the HTTP status of the `latest.json` response -/
  json_http_code : Int
  /-- the first `stat` (line 294) -/
  stat_old : StatRes
  /-- whether `remove` of a stale or corrupt file returns 0 (lines 310, 344) -/
  remove_old_ok : Bool
  /-- whether `popen(MD5_COMMAND)` at line 321 succeeds -/
  popen_md5_old_ok : Bool
  /-- what the md5 command prints about the old file -/
  md5_old_output : String
  /-- the value of `pclose` at line 357 -/
  pclose_md5_old : Int
  /-- whether `popen(SYSUPGRADE_COMMAND)` succeeds -/
  popen_sysupgrade_ok : Bool
  /-- whether `popen(FREE_COMMAND)` succeeds -/
  popen_free_ok : Bool
  /-- the number `fscanf("%zu")` stores in `free_mem` (`none`: no conversion) -/
  fscanf_free : Option Nat
  /-- the value of `pclose` at line 448 -/
  pclose_free : Int
  /-- whether `fopen(UPGRADE_FILE, "w")` succeeds -/
  dl_fopen_ok : Bool
  /-- the code of `curl_easy_perform` for the update file -/
  dl_perform : Nat
  /-- the code of `curl_easy_getinfo` for the update file -/
  dl_getinfo : Nat
  /-- the HTTP status of the update-file response -/
  dl_http_code : Int
  /-- the second `stat` (line 427) -/
  stat_new : StatRes
  /-- whether `popen(MD5_COMMAND)` at line 448 succeeds -/
  popen_md5_new_ok : Bool
  /-- what the md5 command prints about the downloaded file -/
  md5_new_output : String

/-! ## `latest_json_cb` and `get_latest_json` (lines 60-137) -/

/-- The struct `data_holder`: the bytes stored so far and their count. -/
structure data_holder where
  offset : Nat
  data : List Char
  deriving DecidableEq, Repr

/-- What a call of `latest_json_cb` does: it dereferences `NULL` (`crash`), or it
leaves `*raw_holder` as `holder` and returns `n`. -/
inductive CbResult where
  | crash
  | ret (holder : Option data_holder) (n : Nat)
  deriving DecidableEq, Repr

/-- The copy loop of lines 85-88. -/
def copy_items (buffer : List Char) (size : Nat) : Nat → Nat → data_holder → data_holder
  | 0, _, h => h
  | k + 1, count, h =>
    copy_items buffer size k (count + 1)
      { offset := h.offset + size,
        data := h.data.take h.offset ++ (buffer.drop (count * size)).take size }

/-- The write callback `latest_json_cb(buffer, size, nmemb, raw_holder)`;
`raw_holder = none` is a `NULL` argument, `alloc_ok` tells whether the
`malloc`/`realloc` of this call succeeds. -/
def latest_json_cb (buffer : List Char) (size nmemb : Nat)
    (raw_holder : Option (Option data_holder)) (alloc_ok : Bool) : CbResult :=
  match raw_holder with
  | none => .ret none 0
  | some none =>
    -- line 75-76: the result of `malloc` is dereferenced before it is checked
    if alloc_ok then
      .ret (some (copy_items buffer size nmemb 0 { offset := 0, data := [] })) (nmemb * size)
    else .crash
  | some (some h) =>
    if alloc_ok then .ret (some (copy_items buffer size nmemb 0 h)) (nmemb * size)
    else .ret none 0

/-- How a libcurl transfer that feeds `latest_json_cb` ends. -/
inductive DeliverResult where
  | crash
  | write_error (holder : Option data_holder)
  | done (holder : Option data_holder)
  deriving DecidableEq, Repr

/-- The body of a transfer as libcurl hands it to the callback: a callback that
returns a count other than `size * nmemb` aborts the transfer. -/
def deliver (alloc_ok : Nat → Bool) : Nat → List Chunk → Option data_holder → DeliverResult
  | _, [], h => .done h
  | k, c :: cs, h =>
    match latest_json_cb c.buffer c.size c.nmemb (some h) (alloc_ok k) with
    | .crash => .crash
    | .ret h2 n => if n ≠ c.size * c.nmemb then .write_error h2 else deliver alloc_ok (k + 1) cs h2

/-- What `get_latest_json` returns. -/
inductive FetchResult where
  | crash (trace : List Event)
  | null (response : Response) (trace : List Event)
  | holder (h : data_holder) (trace : List Event)
  deriving DecidableEq, Repr

/-- The branches of `get_latest_json` after `curl_easy_perform` (lines 107-136). -/
def get_latest_json_after (env : Env) (holder : Option data_holder) (perform : Nat) :
    FetchResult :=
  if perform = 0 ∧ env.json_getinfo = 0 then
    match holder with
    | none =>
      .null (error_plain 500 env.xsrf
          "The router is out of memory and needs to be restarted immediately.")
        [.curl_perform LATEST_JSON_URL, .syslog .LOG_EMERG "Unable to allocate memory"]
    | some h =>
      if env.json_http_code ≥ 400 then
        .null (error_plain 500 env.xsrf "Error while contacting update server.")
          [.curl_perform LATEST_JSON_URL,
           .syslog .LOG_WARNING "Unable to get latest.json, got HTTP code: %lu"]
      else .holder h [.curl_perform LATEST_JSON_URL]
  else
    .null (error_plain 500 env.xsrf "Error while contacting update server.")
      [.curl_perform LATEST_JSON_URL,
       .syslog .LOG_ERR "Unable to connect to update server: %s"]

/-- The function `get_latest_json`. -/
def get_latest_json (env : Env) : FetchResult :=
  match deliver env.json_alloc_ok 0 env.json_chunks none with
  | .crash => .crash [.curl_perform LATEST_JSON_URL]
  | .write_error h => get_latest_json_after env h CURLE_WRITE_ERROR
  | .done h => get_latest_json_after env h env.json_perform

/-! ## `get_update_file` (lines 139-177) -/

/-- The text `snprintf(full_url, BUFSIZ, BASE_URL "%s", url)` leaves in `full_url`. -/
def full_url (env : Env) (url : Option String) : String :=
  String.mk ((BASE_URL ++ printf_s url).data.take (env.BUFSIZ - 1))

/-- The function `get_update_file(url)`: the error message returned (`none` is
`NULL`, success) and the operations performed. -/
def get_update_file (env : Env) (url : Option String) : Option String × List Event :=
  if env.dl_fopen_ok = false then
    (some "Error while preparing update file.",
     [.fopen_w, .syslog .LOG_ERR "Unable to open update file for writing: %s"])
  else if env.dl_perform = 0 ∧ env.dl_getinfo = 0 then
    if env.dl_http_code ≥ 400 then
      (some "Error while contacting update server.",
       [.fopen_w, .curl_perform (full_url env url),
        .syslog .LOG_WARNING "Unable to get update file, got HTTP code: %lu", .fclose])
    else (none, [.fopen_w, .curl_perform (full_url env url), .fclose])
  else
    (some "Error while contacting update server.",
     [.fopen_w, .curl_perform (full_url env url),
      .syslog .LOG_ERR "Unable to connect to update server: %s", .fclose])

/-! ## `post_update` (lines 179-497) -/

/-- The characters `fgets` stores when it may store at most `k`: it stops after a
newline. -/
def fgets_chars : Nat → List Char → List Char
  | 0, _ => []
  | _, [] => []
  | k + 1, c :: cs => if c = Char.ofNat 10 then [c] else c :: fgets_chars k cs

/-- The call `fgets(hash, n, stream)` on a stream that holds `out`: `NULL` when
nothing can be read. -/
def fgets (n : Nat) (out : String) : Option String :=
  if out.data = [] then none else some (String.mk (fgets_chars (n - 1) out.data))

/-- A `long long` result reduced to 64 bits, two's complement. -/
def wrap_ll (x : Int) : Int := (x + 2 ^ 63) % 2 ^ 64 - 2 ^ 63

/-- The test `(free_mem * 1024) < YAJL_GET_INTEGER(latest_size_yajl) + MINIMUM_EXTRA_MEMORY`
of line 408. The product is computed in `size_t`, the sum in `long long`; a 32-bit
`size_t` is converted to `long long` for the comparison, with a 64-bit `size_t` both
sides are converted to `unsigned long long`. -/
def free_mem_insufficient (st : SizeT) (free_mem : Nat) (latest_size : Int) : Bool :=
  let lhs : Nat := (free_mem * 1024) % 2 ^ st.bits
  let rhs : Int := wrap_ll (latest_size + MINIMUM_EXTRA_MEMORY)
  match st with
  | .u32 => decide ((lhs : Int) < rhs)
  | .u64 => decide ((lhs : Int) < rhs % 2 ^ 64)

/-- Lines 384-488: the download of a new update file and its verification.
`tr` holds the operations performed so far. -/
def download_phase (env : Env) (lv ls lurl lm : YajlVal) (latest_md5_val : String)
    (tr : List Event) : Result :=
  if env.popen_free_ok = false then
    ⟨some (error_echo 500 env.xsrf "Error while checking for available memory." lv ls lm
        .available),
      tr ++ [.popen .FREE_COMMAND, .syslog .LOG_ERR "Unable to popen the free command: %s"]⟩
  else
    match env.fscanf_free with
    | none =>
      ⟨some (error_echo 500 env.xsrf "Error while checking for available memory." lv ls lm
          .available),
        tr ++ [.popen .FREE_COMMAND,
          .syslog .LOG_ERR "Unexpected results or read error for free command: %s", .pclose]⟩
    | some free_mem =>
      if free_mem_insufficient env.size_t free_mem (YAJL_GET_INTEGER ls) = true then
        ⟨some (error_echo 500 env.xsrf
            "Insufficient free memory to download update file. Restarting the router will likely solve this problem."
            lv ls lm .available),
          tr ++ [.popen .FREE_COMMAND,
            .syslog .LOG_ERR "Insufficient memory to download the update.", .pclose]⟩
      else
        match get_update_file env (YAJL_GET_STRING lurl) with
        | (some curl_error, dl) =>
          ⟨some (error_echo 500 env.xsrf curl_error lv ls lm .available),
            tr ++ [.popen .FREE_COMMAND] ++ dl ++ [.pclose]⟩
        | (none, dl) =>
          match env.stat_new with
          | .fail _ =>
            ⟨some (error_echo 500 env.xsrf "Error while reading the downloaded update file."
                lv ls lm .available),
              tr ++ [.popen .FREE_COMMAND] ++ dl ++
                [.stat, .syslog .LOG_ERR "Unable to stat the new update file: %s", .pclose]⟩
          | .ok st_size =>
            if st_size ≠ YAJL_GET_INTEGER ls then
              ⟨some (error_echo 500 env.xsrf "Downloaded update file was the wrong size."
                  lv ls lm .available),
                tr ++ [.popen .FREE_COMMAND] ++ dl ++ [.stat, .remove, .pclose]⟩
            else if env.pclose_free ≠ 0 then
              ⟨some (error_echo 500 env.xsrf "Error while reading the downloaded update file."
                  lv ls lm .available),
                tr ++ [.popen .FREE_COMMAND] ++ dl ++
                  [.stat, .pclose,
                   .syslog .LOG_ERR "Unable to md5 the new update file: %s", .pclose]⟩
            else if env.popen_md5_new_ok = false then
              ⟨some (error_echo 500 env.xsrf "Error while reading the downloaded update file."
                  lv ls lm .available),
                tr ++ [.popen .FREE_COMMAND] ++ dl ++
                  [.stat, .pclose, .popen .MD5_COMMAND,
                   .syslog .LOG_ERR "Unable to md5 the new update file: %s", .pclose]⟩
            else
              match fgets 33 env.md5_new_output with
              | none =>
                ⟨some (error_echo 500 env.xsrf
                    "Error while reading the downloaded update file." lv ls lm .available),
                  tr ++ [.popen .FREE_COMMAND] ++ dl ++
                    [.stat, .pclose, .popen .MD5_COMMAND,
                     .syslog .LOG_ERR "Unable to parse raw md5 of the new update file: %s",
                     .pclose]⟩
              | some hash =>
                if latest_md5_val ≠ hash then
                  ⟨some (error_echo 500 env.xsrf
                      "Downloaded update file did not have the correct md5." lv ls lm
                      .available),
                    tr ++ [.popen .FREE_COMMAND] ++ dl ++
                      [.stat, .pclose, .popen .MD5_COMMAND, .remove, .pclose]⟩
                else
                  ⟨some (ready_response env.xsrf lv ls lm),
                    tr ++ [.popen .FREE_COMMAND] ++ dl ++
                      [.stat, .pclose, .popen .MD5_COMMAND, .pclose]⟩

/-- Lines 282-383: the inspection of a previously downloaded update file;
`api_version_yajl` is the node found at line 251 (`none` is `NULL`). Control falls
through to `download_phase` where the C code leaves the `if` chain. -/
def local_phase (env : Env) (lv ls lurl lm : YajlVal) (api_version_yajl : Option YajlVal)
    (tr : List Event) : Result :=
  match YAJL_GET_STRING lm with
  | none =>
    ⟨some (error_plain 500 env.xsrf "Error while reading update information from server."),
      tr ++ [.syslog .LOG_ERR "Received empty MD5 from latest.json"]⟩
  | some latest_md5_val =>
    match env.stat_old with
    | .fail my_errno =>
      if my_errno ≠ ENOENT then
        ⟨some (error_echo 500 env.xsrf "Error while reading the downloaded update file."
            lv ls lm .available),
          tr ++ [.stat, .syslog .LOG_ERR "Unable to stat the old update file: %s"]⟩
      else download_phase env lv ls lurl lm latest_md5_val (tr ++ [.stat])
    | .ok st_size =>
      if st_size ≠ YAJL_GET_INTEGER ls then
        if env.remove_old_ok = false then
          ⟨some (error_echo 500 env.xsrf "Error while reading the downloaded update file."
              lv ls lm .available),
            tr ++ [.stat,
              .syslog .LOG_WARNING
                "Size of previously downloaded update file is wrong, deleting it.",
              .remove,
              .syslog .LOG_ERR "Unable to remove the old incorrect size update file: %s"]⟩
        else
          download_phase env lv ls lurl lm latest_md5_val
            (tr ++ [.stat,
              .syslog .LOG_WARNING
                "Size of previously downloaded update file is wrong, deleting it.",
              .remove])
      else if env.popen_md5_old_ok = false then
        ⟨some (error_echo 500 env.xsrf "Error while reading the downloaded update file."
            lv ls lm .available),
          tr ++ [.stat, .popen .MD5_COMMAND,
            .syslog .LOG_ERR "Unable to md5 the old update file: %s"]⟩
      else
        match fgets 33 env.md5_old_output with
        | none =>
          ⟨some (error_echo 500 env.xsrf "Error while reading the downloaded update file."
              lv ls lm .available),
            tr ++ [.stat, .popen .MD5_COMMAND,
              .syslog .LOG_ERR "Unable to parse raw md5 of the old update file: %s"]⟩
        | some hash =>
          if latest_md5_val ≠ hash then
            if env.remove_old_ok = false then
              ⟨some (error_echo 500 env.xsrf
                  "Error while reading the downloaded update file." lv ls lm .available),
                tr ++ [.stat, .popen .MD5_COMMAND,
                  .syslog .LOG_WARNING
                    "MD5 of previously downloaded update file is wrong, deleting it.",
                  .remove,
                  .syslog .LOG_ERR "Unable to remove the old incorrect md5 update file: %s"]⟩
            else
              download_phase env lv ls lurl lm latest_md5_val
                (tr ++ [.stat, .popen .MD5_COMMAND,
                  .syslog .LOG_WARNING
                    "MD5 of previously downloaded update file is wrong, deleting it.",
                  .remove])
          else if api_version_yajl.isSome then
            if env.pclose_md5_old ≠ 0 then
              ⟨some (error_echo 500 env.xsrf "Error while starting the upgrade." lv ls lm
                  .ready),
                tr ++ [.stat, .popen .MD5_COMMAND, .pclose,
                  .syslog .LOG_ERR "Unable to popen the sysupgrade command: %s"]⟩
            else if env.popen_sysupgrade_ok = false then
              ⟨some (error_echo 500 env.xsrf "Error while starting the upgrade." lv ls lm
                  .ready),
                tr ++ [.stat, .popen .MD5_COMMAND, .pclose, .popen .SYSUPGRADE_COMMAND,
                  .syslog .LOG_ERR "Unable to popen the sysupgrade command: %s"]⟩
            else
              ⟨some (complete_response env.xsrf),
                tr ++ [.stat, .popen .MD5_COMMAND, .pclose, .popen .SYSUPGRADE_COMMAND,
                  .pclose]⟩
          else
            ⟨some (ready_response env.xsrf lv ls lm), tr ++ [.stat, .popen .MD5_COMMAND]⟩

/-- Lines 251-281, then `local_phase`: the check of the caller's `version`, `size`
and `md5` against the manifest nodes `lv`, `ls`, `lm`. -/
def claim_phase (env : Env) (lv ls lurl lm : YajlVal) (tr : List Event) : Result :=
  match yajl_tree_get env.api_yajl ["version"] .yajl_t_string with
  | none => local_phase env lv ls lurl lm none tr
  | some api_version_yajl =>
    match yajl_tree_get env.api_yajl ["size"] .yajl_t_number with
    | none =>
      ⟨some (error_echo 422 env.xsrf
          "Version, size (in bytes, as a number), and md5 must be supplied before an update will be applied."
          lv ls lm .available), tr⟩
    | some api_size_yajl =>
      match yajl_tree_get env.api_yajl ["md5"] .yajl_t_string with
      | none =>
        ⟨some (error_echo 422 env.xsrf
            "Version, size (in bytes, as a number), and md5 must be supplied before an update will be applied."
            lv ls lm .available), tr⟩
      | some api_md5_yajl =>
        match YAJL_GET_STRING lv, YAJL_GET_STRING api_version_yajl,
            YAJL_GET_STRING lm, YAJL_GET_STRING api_md5_yajl with
        | some latest_version_val, some api_version_val,
            some latest_md5_val, some api_md5_val =>
          if latest_version_val ≠ api_version_val
              ∨ YAJL_GET_INTEGER ls ≠ YAJL_GET_INTEGER api_size_yajl
              ∨ latest_md5_val ≠ api_md5_val then
            ⟨some (error_echo 422 env.xsrf
                "The version, size, and md5 supplied did not match the corresponding values that were expected."
                lv ls lm .available), tr⟩
          else local_phase env lv ls lurl lm (some api_version_yajl) tr
        | _, _, _, _ =>
          ⟨some (error_echo 422 env.xsrf
              "The version, size, and md5 supplied did not match the corresponding values that were expected."
              lv ls lm .available), tr⟩

/-- Lines 227-250, then `claim_phase`: the branch "update available". `latest_yajl`
is the parsed manifest, `lv` the version node found at line 218. -/
def update_available (env : Env) (sui_model : String) (latest_yajl lv : YajlVal)
    (tr : List Event) : Result :=
  match yajl_tree_get (some latest_yajl) [sui_model, "size"] .yajl_t_number with
  | none =>
    ⟨some (error_plain 500 env.xsrf "Error while reading update file information."),
      tr ++ [.syslog .LOG_ERR "Unable to retrieve update file info from latest.json."]⟩
  | some ls =>
    match yajl_tree_get (some latest_yajl) [sui_model, "url"] .yajl_t_string with
    | none =>
      ⟨some (error_plain 500 env.xsrf "Error while reading update file information."),
        tr ++ [.syslog .LOG_ERR "Unable to retrieve update file info from latest.json."]⟩
    | some lurl =>
      match yajl_tree_get (some latest_yajl) [sui_model, "md5"] .yajl_t_string with
      | none =>
        ⟨some (error_plain 500 env.xsrf "Error while reading update file information."),
          tr ++ [.syslog .LOG_ERR "Unable to retrieve update file info from latest.json."]⟩
      | some lm => claim_phase env lv ls lurl lm tr

/-- The handler `post_update(api_yajl, token)`. -/
def post_update (env : Env) : Result :=
  match env.uci_model with
  | none =>
    ⟨some (error_plain 500 env.xsrf "Unable to determine router model."),
      [.syslog .LOG_ERR "Unable to retrieve router model from uci at sui.system.model"]⟩
  | some sui_model =>
    match get_latest_json env with
    | .crash tr => ⟨none, tr⟩
    | .null response tr => ⟨some response, tr⟩
    | .holder h tr =>
      match env.yajl_tree_parse (String.mk h.data) with
      | none =>
        ⟨some (error_plain 500 env.xsrf "Error while reading update information from server."),
          tr ++ [.syslog .LOG_ERR "Unable to parse latest.json: %s"]⟩
      | some latest_yajl =>
        if YAJL_IS_OBJECT latest_yajl = false then
          ⟨some (error_plain 500 env.xsrf
              "Error while reading update information from server."),
            tr ++ [.syslog .LOG_ERR "Unable to parse latest.json: %s"]⟩
        else
          match yajl_tree_get (some latest_yajl) [sui_model, "version"] .yajl_t_string with
          | none =>
            ⟨some (error_plain 500 env.xsrf
                "Error while reading update version number for device."),
              tr ++ [.syslog .LOG_ERR
                "Unable to retrieve update version number from latest.json."]⟩
          | some lv =>
            if env.version_compare (YAJL_GET_STRING lv) > 0 then
              update_available env sui_model latest_yajl lv tr
            else ⟨some (none_response env.xsrf), tr⟩

/-! ## The manifest entry as the handler reads it -/

/-- The record `version`, `size`, `url`, `md5` of a manifest entry. -/
structure Manifest where
  version : String
  size : Int
  url : String
  md5 : String
  deriving DecidableEq, Repr

/-- The manifest entry of the configured model, when the uci lookup, the fetch of
`latest.json`, its parse and the four lookups of lines 218 and 240-242 all succeed:
the values `YAJL_GET_STRING` and `YAJL_GET_INTEGER` give for the four nodes. -/
def read_manifest (env : Env) : Option Manifest :=
  match env.uci_model with
  | none => none
  | some sui_model =>
    match get_latest_json env with
    | .holder h _ =>
      match env.yajl_tree_parse (String.mk h.data) with
      | none => none
      | some latest_yajl =>
        if YAJL_IS_OBJECT latest_yajl = false then none
        else
          match yajl_tree_get (some latest_yajl) [sui_model, "version"] .yajl_t_string,
              yajl_tree_get (some latest_yajl) [sui_model, "size"] .yajl_t_number,
              yajl_tree_get (some latest_yajl) [sui_model, "url"] .yajl_t_string,
              yajl_tree_get (some latest_yajl) [sui_model, "md5"] .yajl_t_string with
          | some lv, some ls, some lurl, some lm =>
            match YAJL_GET_STRING lv, YAJL_GET_STRING lurl, YAJL_GET_STRING lm with
            | some v, some u, some d => some ⟨v, YAJL_GET_INTEGER ls, u, d⟩
            | _, _, _ => none
          | _, _, _, _ => none
    | _ => none

/-- The error body that echoes the manifest `m`. -/
def Manifest.error (m : Manifest) (status : Nat) (xsrf msg : String) (tag : UpdateTag) :
    Response :=
  { status := status, xsrf := xsrf, errors := [msg], version := some m.version,
    size := some m.size, md5 := some m.md5, update := some tag, rebooting := false }

/-- The `ready` body that echoes the manifest `m`. -/
def Manifest.ready (m : Manifest) (xsrf : String) : Response :=
  { status := 200, xsrf := xsrf, errors := [], version := some m.version,
    size := some m.size, md5 := some m.md5, update := some .ready, rebooting := false }

/-! ## A comparator and sample environments -/

/-- The segments of a dotted version string. -/
def split_dots : List Char → List (List Char)
  | [] => [[]]
  | c :: cs =>
    if c = Char.ofNat 46 then [] :: split_dots cs
    else
      match split_dots cs with
      | [] => [[c]]
      | seg :: segs => (c :: seg) :: segs

/-- The number a segment denotes; a segment that is not a decimal number counts as 0. -/
def segment_value (seg : List Char) : Nat :=
  if seg ≠ [] ∧ seg.all Char.isDigit = true then
    seg.foldl (fun n c => 10 * n + (c.toNat - 48)) 0
  else 0

/-- The comparison of two lists of segments, left to right, a missing segment
counting as 0. -/
def compare_segments : List Nat → List Nat → Int
  | [], bs => if bs.any (fun b => decide (0 < b)) = true then -1 else 0
  | a :: as, [] => if 0 < a then 1 else compare_segments as []
  | a :: as, b :: bs => if b < a then 1 else if a < b then -1 else compare_segments as bs

/-- Modelled from the spec: `version_compare` of `version.h`, which is not under
`src/`. Section 4.2: the result is positive iff the remote version is newer than the
running one, dotted numeric segments being compared left to right with missing
segments treated as zero and non-numeric segments as a defined low value. `current`
is the running version. -/
def version_compare_model (current : String) (remote : Option String) : Int :=
  match remote with
  | none => -1
  | some r =>
    compare_segments ((split_dots r.data).map segment_value)
      ((split_dots current.data).map segment_value)

/-- A manifest body: one entry, for the model `wiomw-router`, version 2.1. -/
def sample_text : String :=
  "\x7b\"wiomw-router\":\x7b\"version\":\"2.1\",\"size\":4194304,\"url\":\"wiomw-2.1.bin\",\"md5\":\"0123456789abcdef0123456789abcdef\"\x7d\x7d"

/-- The tree of the entry in `sample_text`. -/
def sample_entry : List (String × YajlVal) :=
  [("version", .string "2.1"), ("size", .number 4194304 true),
   ("url", .string "wiomw-2.1.bin"), ("md5", .string "0123456789abcdef0123456789abcdef")]

/-- The manifest record of `sample_entry`. -/
def sample_manifest : Manifest :=
  { version := "2.1", size := 4194304, url := "wiomw-2.1.bin",
    md5 := "0123456789abcdef0123456789abcdef" }

/-- What the md5 command prints for a file whose checksum is that of the manifest. -/
def good_md5_output : String :=
  "0123456789abcdef0123456789abcdef  /tmp/sysupgrade.bin\n"

/-- What the md5 command prints for a file with another checksum. -/
def bad_md5_output : String :=
  "ffffffffffffffffffffffffffffffff  /tmp/sysupgrade.bin\n"

/-- A request body that carries the claim matching `sample_manifest`. -/
def matching_claim : YajlVal :=
  .object [("version", .string "2.1"), ("size", .number 4194304 true),
    ("md5", .string "0123456789abcdef0123456789abcdef")]

/-- A router that runs version 2.0, whose server answers 200 with `sample_text`
in one callback call, with no update file on disk, 64 MiB free, every system call
succeeding and the download producing a file of the manifest's size and md5; the
request carries no claim. `text` is the body the server sends and `entry` the tree
of the model's entry in it. -/
def sample_env (text : String) (entry : List (String × YajlVal)) : Env :=
  { api_yajl := some (.object []),
    xsrf := "token",
    uci_model := some "wiomw-router",
    version_compare := version_compare_model "2.0",
    yajl_tree_parse := fun s =>
      if s = text then some (.object [("wiomw-router", .object entry)]) else none,
    BUFSIZ := 1024,
    size_t := .u32,
    json_chunks := [{ size := 1, nmemb := text.data.length, buffer := text.data }],
    json_alloc_ok := fun _ => true,
    json_perform := 0,
    json_getinfo := 0,
    json_http_code := 200,
    stat_old := .fail ENOENT,
    remove_old_ok := true,
    popen_md5_old_ok := true,
    md5_old_output := good_md5_output,
    pclose_md5_old := 0,
    popen_sysupgrade_ok := true,
    popen_free_ok := true,
    fscanf_free := some 65536,
    pclose_free := 0,
    dl_fopen_ok := true,
    dl_perform := 0,
    dl_getinfo := 0,
    dl_http_code := 200,
    stat_new := .ok 4194304,
    popen_md5_new_ok := true,
    md5_new_output := good_md5_output }

/-- The update file of `sample_manifest` is on disk and the request claims the
manifest's version and size with another md5. -/
def env_wrong_md5_claim : Env :=
  { sample_env sample_text sample_entry with
    api_yajl := some (.object [("version", .string "2.1"), ("size", .number 4194304 true),
      ("md5", .string "ffffffffffffffffffffffffffffffff")]),
    stat_old := .ok 4194304 }

/-- The update file of `sample_manifest` is on disk and the request carries `size`
and `md5` but no `version`. -/
def env_size_md5_only : Env :=
  { sample_env sample_text sample_entry with
    api_yajl := some (.object [("size", .number 4194304 true),
      ("md5", .string "0123456789abcdef0123456789abcdef")]),
    stat_old := .ok 4194304 }

/-- The request carries `version` only. -/
def env_version_only : Env :=
  { sample_env sample_text sample_entry with api_yajl := some (.object [("version", .string "2.1")]) }

/-- The update file of `sample_manifest` is on disk and the request carries the
matching claim. -/
def env_valid_claimed : Env :=
  { sample_env sample_text sample_entry with api_yajl := some matching_claim, stat_old := .ok 4194304 }

/-- As `env_valid_claimed`, but closing the pipe of the md5 command reports 1. -/
def env_valid_claimed_pclose_fails : Env :=
  { env_valid_claimed with pclose_md5_old := 1 }

/-- The update file of `sample_manifest` is on disk and the request carries no claim. -/
def env_valid_unclaimed : Env :=
  { sample_env sample_text sample_entry with stat_old := .ok 4194304 }

/-- No update file on disk and 1024 KiB reported free. -/
def env_low_memory : Env :=
  { sample_env sample_text sample_entry with fscanf_free := some 1024 }

/-- No update file on disk and 6144 KiB reported free: in bytes exactly the
manifest size plus `MINIMUM_EXTRA_MEMORY`. -/
def env_boundary_memory : Env :=
  { sample_env sample_text sample_entry with fscanf_free := some 6144 }

/-- The download succeeds but the md5 command prints another checksum. -/
def env_download_wrong_md5 : Env :=
  { sample_env sample_text sample_entry with md5_new_output := bad_md5_output }

/-- A manifest body whose entry has only a `version`, equal to the running one. -/
def old_incomplete_text : String :=
  "\x7b\"wiomw-router\":\x7b\"version\":\"2.0\"\x7d\x7d"

/-- The tree of `old_incomplete_text`. -/
def old_incomplete_json : YajlVal :=
  .object [("wiomw-router", .object [("version", .string "2.0")])]

/-- The server sends `old_incomplete_text`. -/
def env_old_incomplete : Env :=
  sample_env old_incomplete_text [("version", .string "2.0")]

/-- A manifest body whose entry has only a `version`, newer than the running one. -/
def new_incomplete_text : String :=
  "\x7b\"wiomw-router\":\x7b\"version\":\"2.1\"\x7d\x7d"

/-- The tree of `new_incomplete_text`. -/
def new_incomplete_json : YajlVal :=
  .object [("wiomw-router", .object [("version", .string "2.1")])]

/-- The server sends `new_incomplete_text`. -/
def env_new_incomplete : Env :=
  sample_env new_incomplete_text [("version", .string "2.1")]

/-- The server answers 404 with an empty body: the write callback is never called. -/
def env_404_empty_body : Env :=
  { sample_env sample_text sample_entry with json_chunks := [], json_http_code := 404 }

/-- No update file on disk and `popen(FREE_COMMAND)` fails. -/
def env_free_fails : Env :=
  { sample_env sample_text sample_entry with popen_free_ok := false }

/-- The environment `env` with other answers of the md5 command about the old
file: its output, whether it could be started, and the status of its pipe. -/
def with_old_md5 (env : Env) (out : String) (ok : Bool) (pc : Int) : Env :=
  { env with md5_old_output := out, popen_md5_old_ok := ok, pclose_md5_old := pc }

/-- The environment `env` with no update file on disk at the first `stat`. -/
def without_artifact (env : Env) : Env :=
  { env with stat_old := .fail ENOENT }

/-- An update file of 100 bytes is on disk; the request carries no claim. -/
def env_stale : Env :=
  { sample_env sample_text sample_entry with stat_old := .ok 100 }

/-- An update file of the manifest's size and another md5 is on disk. -/
def env_corrupt : Env :=
  { sample_env sample_text sample_entry with
    stat_old := .ok 4194304, md5_old_output := bad_md5_output }

/-- As `env_download_wrong_md5`, and closing the pipe of the free-memory command
reports 1. -/
def env_download_wrong_md5_pclose_fails : Env :=
  { env_download_wrong_md5 with pclose_free := 1 }

/-! ## General lemmas -/

/-- The string of a string node. -/
theorem YAJL_GET_STRING_string (s : String) : YAJL_GET_STRING (.string s) = some s := rfl

/-- A fetch that returns a holder has performed the transfer and nothing else. -/
theorem get_latest_json_after_holder (env : Env) (o : Option data_holder) (c : Nat)
    (h : data_holder) (tr : List Event)
    (hf : get_latest_json_after env o c = .holder h tr) :
    tr = [.curl_perform LATEST_JSON_URL] := by
  unfold get_latest_json_after at hf
  split at hf
  · split at hf
    · simp at hf
    · split at hf
      · simp at hf
      · simp only [FetchResult.holder.injEq] at hf
        exact hf.2.symm
  · simp at hf

/-- The operations of a successful `get_latest_json`. -/
theorem get_latest_json_holder (env : Env) (h : data_holder) (tr : List Event)
    (hf : get_latest_json env = .holder h tr) : tr = [.curl_perform LATEST_JSON_URL] := by
  unfold get_latest_json at hf
  split at hf
  · simp at hf
  · exact get_latest_json_after_holder env _ _ h tr hf
  · exact get_latest_json_after_holder env _ _ h tr hf

/-- An error body built from nodes that carry the values of `m` echoes `m`. -/
theorem error_echo_eq (m : Manifest) (lv ls lm : YajlVal) (status : Nat) (xsrf msg : String)
    (tag : UpdateTag) (hv : YAJL_GET_STRING lv = some m.version)
    (hs : YAJL_GET_INTEGER ls = m.size) (hd : YAJL_GET_STRING lm = some m.md5) :
    error_echo status xsrf msg lv ls lm tag = m.error status xsrf msg tag := by
  simp [error_echo, Manifest.error, printf_s, hv, hs, hd]

/-- A `ready` body built from nodes that carry the values of `m` echoes `m`. -/
theorem ready_response_eq (m : Manifest) (lv ls lm : YajlVal) (xsrf : String)
    (hv : YAJL_GET_STRING lv = some m.version)
    (hs : YAJL_GET_INTEGER ls = m.size) (hd : YAJL_GET_STRING lm = some m.md5) :
    ready_response xsrf lv ls lm = m.ready xsrf := by
  simp [ready_response, Manifest.ready, printf_s, hv, hs, hd]

/-- When the manifest entry `m` is read and its version compares newer, the
handler continues at line 251 with nodes that carry the values of `m`. -/
theorem post_update_of_manifest (env : Env) (m : Manifest)
    (hm : read_manifest env = some m)
    (hnew : 0 < env.version_compare (some m.version)) :
    ∃ lv ls lurl lm, YAJL_GET_STRING lv = some m.version ∧ YAJL_GET_INTEGER ls = m.size ∧
      YAJL_GET_STRING lurl = some m.url ∧ YAJL_GET_STRING lm = some m.md5 ∧
      post_update env = claim_phase env lv ls lurl lm [.curl_perform LATEST_JSON_URL] := by
  unfold read_manifest at hm
  unfold post_update
  cases hu : env.uci_model with
  | none => simp [hu] at hm
  | some sui_model =>
    simp only [hu] at hm ⊢
    cases hf : get_latest_json env with
    | crash tr => simp [hf] at hm
    | null r tr => simp [hf] at hm
    | holder h tr =>
      have htr := get_latest_json_holder env h tr hf
      subst htr
      simp only [hf] at hm ⊢
      cases hp : env.yajl_tree_parse (String.mk h.data) with
      | none => simp [hp] at hm
      | some latest_yajl =>
        simp only [hp] at hm ⊢
        by_cases ho : YAJL_IS_OBJECT latest_yajl = false
        · simp [ho] at hm
        · rw [if_neg ho] at hm ⊢
          cases h1 : yajl_tree_get (some latest_yajl) [sui_model, "version"] .yajl_t_string with
          | none => simp [h1] at hm
          | some lv =>
            cases h2 : yajl_tree_get (some latest_yajl) [sui_model, "size"] .yajl_t_number with
            | none => simp [h1, h2] at hm
            | some ls =>
              cases h3 : yajl_tree_get (some latest_yajl) [sui_model, "url"] .yajl_t_string with
              | none => simp [h1, h2, h3] at hm
              | some lurl =>
                cases h4 : yajl_tree_get (some latest_yajl) [sui_model, "md5"]
                    .yajl_t_string with
                | none => simp [h1, h2, h3, h4] at hm
                | some lm =>
                  simp only [h1, h2, h3, h4] at hm
                  cases h5 : YAJL_GET_STRING lv with
                  | none => simp [h5] at hm
                  | some v =>
                    cases h6 : YAJL_GET_STRING lurl with
                    | none => simp [h5, h6] at hm
                    | some u =>
                      cases h7 : YAJL_GET_STRING lm with
                      | none => simp [h5, h6, h7] at hm
                      | some d =>
                        simp only [h5, h6, h7, Option.some.injEq] at hm
                        subst hm
                        refine ⟨lv, ls, lurl, lm, h5, rfl, h6, h7, ?_⟩
                        simp only at hnew
                        simp only [h5, hnew, gt_iff_lt, if_true, update_available, h2, h3, h4]

/-! ## The caller's claim (lines 251-281) -/

/-- C1. When the manifest version is newer and the request carries a claim whose
version and size equal the manifest's but whose md5 differs, the handler answers 422
with the claim-mismatch message and the manifest's version, size and md5, and the
only operation it performs is the fetch of `latest.json`: no `stat`, `remove`,
`popen` or download, whatever the environment says about the local file. -/
theorem claim_md5_mismatch_rejected (env : Env) (m : Manifest) (sz : YajlVal) (d : String)
    (hm : read_manifest env = some m)
    (hnew : 0 < env.version_compare (some m.version))
    (hv : yajl_tree_get env.api_yajl ["version"] .yajl_t_string = some (.string m.version))
    (hs : yajl_tree_get env.api_yajl ["size"] .yajl_t_number = some sz)
    (hsz : YAJL_GET_INTEGER sz = m.size)
    (hd : yajl_tree_get env.api_yajl ["md5"] .yajl_t_string = some (.string d))
    (hne : d ≠ m.md5) :
    post_update env =
      { response := some
          { status := 422, xsrf := env.xsrf,
            errors := ["The version, size, and md5 supplied did not match the corresponding values that were expected."],
            version := some m.version, size := some m.size, md5 := some m.md5,
            update := some .available, rebooting := false },
        trace := [.curl_perform LATEST_JSON_URL] } := by
  obtain ⟨lv, ls, lurl, lm, h1, h2, _, h4, hp⟩ := post_update_of_manifest env m hm hnew
  rw [hp]
  unfold claim_phase
  simp only [hv, hs, hd, h1, h4, h2, hsz, YAJL_GET_STRING_string]
  rw [if_pos (Or.inr (Or.inr (Ne.symm hne))), error_echo_eq m lv ls lm _ _ _ _ h1 h2 h4]
  rfl

set_option maxRecDepth 100000 in
/-- The mismatch answer for `env_wrong_md5_claim`, where the valid file is on disk. -/
theorem claim_md5_mismatch_rejected_witness :
    post_update env_wrong_md5_claim =
      { response := some
          { status := 422, xsrf := "token",
            errors := ["The version, size, and md5 supplied did not match the corresponding values that were expected."],
            version := some "2.1", size := some 4194304,
            md5 := some "0123456789abcdef0123456789abcdef",
            update := some .available, rebooting := false },
        trace := [.curl_perform LATEST_JSON_URL] } :=
  claim_md5_mismatch_rejected env_wrong_md5_claim sample_manifest (.number 4194304 true)
    "ffffffffffffffffffffffffffffffff" (by decide) (by decide) (by rfl) (by rfl) (by rfl)
    (by rfl) (by decide)

/-- A request without a `version` string is handled as a request with no body. -/
theorem post_update_without_version (env : Env)
    (hv : yajl_tree_get env.api_yajl ["version"] .yajl_t_string = none) :
    post_update env = post_update { env with api_yajl := none } := by
  have key : ∀ lv ls lurl lm tr,
      claim_phase { env with api_yajl := none } lv ls lurl lm tr
        = claim_phase env lv ls lurl lm tr := by
    intro lv ls lurl lm tr
    unfold claim_phase
    simp only [hv, yajl_tree_get]
    rfl
  have key2 : ∀ sui latest lv tr,
      update_available { env with api_yajl := none } sui latest lv tr
        = update_available env sui latest lv tr := by
    intro sui latest lv tr
    unfold update_available
    simp only [key]
  have key3 : get_latest_json { env with api_yajl := none } = get_latest_json env := rfl
  unfold post_update
  simp only [key2, key3]

/-- C2 (amended). When the manifest version is newer and the request lacks at least
one of `version` (string), `size` (number) and `md5` (string): if it carries a
`version` string the handler answers 422 with the "must be supplied" message and the
manifest's fields, having performed nothing but the manifest fetch; if it carries no
`version` string, whatever it carries as `size` and `md5`, the request is handled
exactly as a request without any claim. -/
theorem claim_fields_missing (env : Env) (m : Manifest)
    (hm : read_manifest env = some m)
    (hnew : 0 < env.version_compare (some m.version))
    (hmiss : yajl_tree_get env.api_yajl ["version"] .yajl_t_string = none
      ∨ yajl_tree_get env.api_yajl ["size"] .yajl_t_number = none
      ∨ yajl_tree_get env.api_yajl ["md5"] .yajl_t_string = none) :
    post_update env =
      if (yajl_tree_get env.api_yajl ["version"] .yajl_t_string).isSome = true then
        { response := some
            { status := 422, xsrf := env.xsrf,
              errors := ["Version, size (in bytes, as a number), and md5 must be supplied before an update will be applied."],
              version := some m.version, size := some m.size, md5 := some m.md5,
              update := some .available, rebooting := false },
          trace := [.curl_perform LATEST_JSON_URL] }
      else post_update { env with api_yajl := none } := by
  cases hv : yajl_tree_get env.api_yajl ["version"] .yajl_t_string with
  | none =>
    simp only [Option.isSome_none, Bool.false_eq_true, if_false]
    exact post_update_without_version env hv
  | some av =>
    simp only [Option.isSome_some, if_true]
    obtain ⟨lv, ls, lurl, lm, h1, h2, _, h4, hp⟩ := post_update_of_manifest env m hm hnew
    rw [hp]
    unfold claim_phase
    simp only [hv]
    cases hs : yajl_tree_get env.api_yajl ["size"] .yajl_t_number with
    | none =>
      simp only [error_echo_eq m lv ls lm _ _ _ _ h1 h2 h4]
      rfl
    | some sz =>
      cases hd : yajl_tree_get env.api_yajl ["md5"] .yajl_t_string with
      | none =>
        simp only [error_echo_eq m lv ls lm _ _ _ _ h1 h2 h4]
        rfl
      | some md =>
        rcases hmiss with h | h | h
        · rw [hv] at h; exact absurd h (by simp)
        · rw [hs] at h; exact absurd h (by simp)
        · rw [hd] at h; exact absurd h (by simp)

set_option maxRecDepth 100000 in
/-- The "must be supplied" answer for a request that carries `version` only. -/
theorem claim_fields_missing_witness :
    post_update env_version_only =
      { response := some
          { status := 422, xsrf := "token",
            errors := ["Version, size (in bytes, as a number), and md5 must be supplied before an update will be applied."],
            version := some "2.1", size := some 4194304,
            md5 := some "0123456789abcdef0123456789abcdef",
            update := some .available, rebooting := false },
        trace := [.curl_perform LATEST_JSON_URL] } :=
  claim_fields_missing env_version_only sample_manifest (by decide) (by decide)
    (Or.inr (Or.inl (by rfl)))

set_option maxRecDepth 100000 in
/-- C2 (as stated) fails: with an update available and the valid update file on
disk, a request that carries `size` and `md5` but no `version` is answered 200
`ready`, not an error. -/
theorem size_md5_without_version_not_rejected :
    read_manifest env_size_md5_only = some sample_manifest
      ∧ 0 < env_size_md5_only.version_compare (some sample_manifest.version)
      ∧ (yajl_tree_get env_size_md5_only.api_yajl ["version"] .yajl_t_string).isSome = false
      ∧ (yajl_tree_get env_size_md5_only.api_yajl ["size"] .yajl_t_number).isSome = true
      ∧ (yajl_tree_get env_size_md5_only.api_yajl ["md5"] .yajl_t_string).isSome = true
      ∧ (post_update env_size_md5_only).response =
          some { status := 200, xsrf := "token", errors := [], version := some "2.1",
                 size := some 4194304, md5 := some "0123456789abcdef0123456789abcdef",
                 update := some .ready, rebooting := false } := by
  decide

/-! ## A valid update file on disk (lines 294-383) -/

/-- When the old file has the manifest's size and md5, `local_phase` ends in the
branches of lines 355-383. -/
theorem local_phase_valid (env : Env) (m : Manifest) (lv ls lurl lm : YajlVal)
    (av : Option YajlVal) (tr : List Event)
    (h2 : YAJL_GET_INTEGER ls = m.size) (h4 : YAJL_GET_STRING lm = some m.md5)
    (hstat : env.stat_old = .ok m.size)
    (hpo : env.popen_md5_old_ok = true)
    (hmd5 : fgets 33 env.md5_old_output = some m.md5) :
    local_phase env lv ls lurl lm av tr =
      if av.isSome = true then
        if env.pclose_md5_old ≠ 0 then
          ⟨some (error_echo 500 env.xsrf "Error while starting the upgrade." lv ls lm .ready),
            tr ++ [.stat, .popen .MD5_COMMAND, .pclose,
              .syslog .LOG_ERR "Unable to popen the sysupgrade command: %s"]⟩
        else if env.popen_sysupgrade_ok = false then
          ⟨some (error_echo 500 env.xsrf "Error while starting the upgrade." lv ls lm .ready),
            tr ++ [.stat, .popen .MD5_COMMAND, .pclose, .popen .SYSUPGRADE_COMMAND,
              .syslog .LOG_ERR "Unable to popen the sysupgrade command: %s"]⟩
        else
          ⟨some (complete_response env.xsrf),
            tr ++ [.stat, .popen .MD5_COMMAND, .pclose, .popen .SYSUPGRADE_COMMAND, .pclose]⟩
      else ⟨some (ready_response env.xsrf lv ls lm), tr ++ [.stat, .popen .MD5_COMMAND]⟩ := by
  unfold local_phase
  simp only [h4, hstat, h2, hpo, hmd5, ne_eq, not_true_eq_false, if_false,
    Bool.true_eq_false]

/-- With a claim equal to the manifest, `claim_phase` continues with the local
inspection. -/
theorem claim_phase_matching (env : Env) (m : Manifest) (lv ls lurl lm sz : YajlVal)
    (tr : List Event)
    (h1 : YAJL_GET_STRING lv = some m.version)
    (h2 : YAJL_GET_INTEGER ls = m.size) (h4 : YAJL_GET_STRING lm = some m.md5)
    (hv : yajl_tree_get env.api_yajl ["version"] .yajl_t_string = some (.string m.version))
    (hs : yajl_tree_get env.api_yajl ["size"] .yajl_t_number = some sz)
    (hsz : YAJL_GET_INTEGER sz = m.size)
    (hd : yajl_tree_get env.api_yajl ["md5"] .yajl_t_string = some (.string m.md5)) :
    claim_phase env lv ls lurl lm tr
      = local_phase env lv ls lurl lm (some (.string m.version)) tr := by
  unfold claim_phase
  simp only [hv, hs, hd, h1, h2, h4, hsz, YAJL_GET_STRING_string, ne_eq, not_true_eq_false,
    or_self, if_false]

/-- C3 (amended). When the manifest version is newer, the local file has the
manifest's size and md5, the claim equals the manifest and closing the pipe of the
md5 command reports status 0, the handler invokes the upgrade command exactly once,
performs no `remove` and no download, and, when the launch succeeds, answers 200
`complete` with `rebooting:true`. -/
theorem valid_artifact_matching_claim_upgrades (env : Env) (m : Manifest) (sz : YajlVal)
    (hm : read_manifest env = some m)
    (hnew : 0 < env.version_compare (some m.version))
    (hstat : env.stat_old = .ok m.size)
    (hpo : env.popen_md5_old_ok = true)
    (hmd5 : fgets 33 env.md5_old_output = some m.md5)
    (hv : yajl_tree_get env.api_yajl ["version"] .yajl_t_string = some (.string m.version))
    (hs : yajl_tree_get env.api_yajl ["size"] .yajl_t_number = some sz)
    (hsz : YAJL_GET_INTEGER sz = m.size)
    (hd : yajl_tree_get env.api_yajl ["md5"] .yajl_t_string = some (.string m.md5))
    (hpc : env.pclose_md5_old = 0) :
    (post_update env).trace.count (.popen .SYSUPGRADE_COMMAND) = 1
      ∧ Event.remove ∉ (post_update env).trace
      ∧ Event.fopen_w ∉ (post_update env).trace
      ∧ (env.popen_sysupgrade_ok = true →
          (post_update env).response =
            some { status := 200, xsrf := env.xsrf, errors := [], version := none,
                   size := none, md5 := none, update := some .complete,
                   rebooting := true }) := by
  obtain ⟨lv, ls, lurl, lm, h1, h2, _, h4, hp⟩ := post_update_of_manifest env m hm hnew
  rw [hp, claim_phase_matching env m lv ls lurl lm sz _ h1 h2 h4 hv hs hsz hd,
    local_phase_valid env m lv ls lurl lm _ _ h2 h4 hstat hpo hmd5]
  simp only [Option.isSome_some, if_true, hpc, ne_eq, not_true_eq_false, if_false]
  cases hup : env.popen_sysupgrade_ok
  · simp [List.count_cons]
  · simp [List.count_cons, complete_response]

set_option maxRecDepth 100000 in
/-- The upgrade is started once for `env_valid_claimed`. -/
theorem valid_artifact_matching_claim_upgrades_witness :
    (post_update env_valid_claimed).trace.count (.popen .SYSUPGRADE_COMMAND) = 1
      ∧ Event.remove ∉ (post_update env_valid_claimed).trace
      ∧ Event.fopen_w ∉ (post_update env_valid_claimed).trace
      ∧ (env_valid_claimed.popen_sysupgrade_ok = true →
          (post_update env_valid_claimed).response =
            some { status := 200, xsrf := env_valid_claimed.xsrf, errors := [],
                   version := none, size := none, md5 := none, update := some .complete,
                   rebooting := true }) :=
  valid_artifact_matching_claim_upgrades env_valid_claimed sample_manifest
    (.number 4194304 true) (by decide) (by decide) (by rfl) (by rfl) (by decide) (by rfl)
    (by rfl) (by rfl) (by rfl) (by rfl)

set_option maxRecDepth 100000 in
/-- C3 (as stated) fails: the local file has the manifest's size and md5 and the
claim equals the manifest, but closing the pipe of the md5 command reports 1; the
upgrade command is not invoked and the answer is the 500 error "Error while starting
the upgrade." -/
theorem valid_artifact_matching_claim_pclose_fails :
    read_manifest env_valid_claimed_pclose_fails = some sample_manifest
      ∧ 0 < env_valid_claimed_pclose_fails.version_compare (some sample_manifest.version)
      ∧ env_valid_claimed_pclose_fails.stat_old = .ok sample_manifest.size
      ∧ fgets 33 env_valid_claimed_pclose_fails.md5_old_output = some sample_manifest.md5
      ∧ (post_update env_valid_claimed_pclose_fails).trace.count
          (.popen .SYSUPGRADE_COMMAND) = 0
      ∧ (post_update env_valid_claimed_pclose_fails).response =
          some (sample_manifest.error 500 "token" "Error while starting the upgrade."
            .ready) := by
  decide

/-- C4. When the manifest version is newer, the local file has the manifest's size
and md5 and the request carries no `version` (so no claim), the handler answers 200
`ready` with the manifest's version, size and md5; the answer is not `complete` and
the upgrade command is not invoked. -/
theorem valid_artifact_without_claim_ready (env : Env) (m : Manifest)
    (hm : read_manifest env = some m)
    (hnew : 0 < env.version_compare (some m.version))
    (hstat : env.stat_old = .ok m.size)
    (hpo : env.popen_md5_old_ok = true)
    (hmd5 : fgets 33 env.md5_old_output = some m.md5)
    (hv : yajl_tree_get env.api_yajl ["version"] .yajl_t_string = none) :
    (post_update env).response =
        some { status := 200, xsrf := env.xsrf, errors := [], version := some m.version,
               size := some m.size, md5 := some m.md5, update := some .ready,
               rebooting := false }
      ∧ (∀ r, (post_update env).response = some r → r.update ≠ some .complete)
      ∧ Event.popen .SYSUPGRADE_COMMAND ∉ (post_update env).trace := by
  obtain ⟨lv, ls, lurl, lm, h1, h2, _, h4, hp⟩ := post_update_of_manifest env m hm hnew
  have hc : claim_phase env lv ls lurl lm [.curl_perform LATEST_JSON_URL]
      = local_phase env lv ls lurl lm none [.curl_perform LATEST_JSON_URL] := by
    unfold claim_phase
    simp only [hv]
  rw [hp, hc, local_phase_valid env m lv ls lurl lm _ _ h2 h4 hstat hpo hmd5]
  simp only [Option.isSome_none, Bool.false_eq_true, if_false,
    ready_response_eq m lv ls lm _ h1 h2 h4]
  refine ⟨rfl, ?_, ?_⟩
  · intro r hr
    simp only [Option.some.injEq] at hr
    subst hr
    simp [Manifest.ready]
  · simp

set_option maxRecDepth 100000 in
/-- The `ready` answer for `env_valid_unclaimed`. -/
theorem valid_artifact_without_claim_ready_witness :
    (post_update env_valid_unclaimed).response =
        some { status := 200, xsrf := env_valid_unclaimed.xsrf, errors := [],
               version := some sample_manifest.version, size := some sample_manifest.size,
               md5 := some sample_manifest.md5, update := some .ready, rebooting := false }
      ∧ (∀ r, (post_update env_valid_unclaimed).response = some r →
          r.update ≠ some .complete)
      ∧ Event.popen .SYSUPGRADE_COMMAND ∉ (post_update env_valid_unclaimed).trace :=
  valid_artifact_without_claim_ready env_valid_unclaimed sample_manifest (by decide)
    (by decide) (by rfl) (by rfl) (by decide) (by rfl)

/-! ## The memory check (lines 385-418) -/

/-- When the test of line 408 is false, the `size_t` product is at least the sum. -/
theorem insufficient_false (st : SizeT) (free_mem : Nat) (size : Int)
    (hlo : -(2 ^ 63) ≤ size) (hhi : size + 2097152 < 2 ^ 63)
    (h : free_mem_insufficient st free_mem size = false) :
    size + 2097152 ≤ ((free_mem * 1024 % 2 ^ st.bits : Nat) : Int) := by
  unfold free_mem_insufficient at h
  cases st <;> simp only [SizeT.bits, wrap_ll, MINIMUM_EXTRA_MEMORY, decide_eq_false_iff_not, not_lt] at h ⊢
  · norm_num at h hlo hhi ⊢
    omega
  · norm_num at h hlo hhi ⊢
    omega

/-- When the `size_t` product is below the sum, the test of line 408 is true. -/
theorem insufficient_true (st : SizeT) (free_mem : Nat) (size : Int)
    (hlo : -(2 ^ 63) ≤ size) (hhi : size + 2097152 < 2 ^ 63)
    (h : ((free_mem * 1024 % 2 ^ st.bits : Nat) : Int) < size + 2097152) :
    free_mem_insufficient st free_mem size = true := by
  unfold free_mem_insufficient
  cases st <;> simp only [SizeT.bits, wrap_ll, MINIMUM_EXTRA_MEMORY, decide_eq_true_eq] at h ⊢
  · norm_num at h hlo hhi ⊢
    omega
  · norm_num at h hlo hhi ⊢
    omega

/-- The download phase opens the update file only after the memory test has passed. -/
theorem download_phase_fopen (env : Env) (lv ls lurl lm : YajlVal) (d : String)
    (tr : List Event) (hnot : Event.fopen_w ∉ tr)
    (h : Event.fopen_w ∈ (download_phase env lv ls lurl lm d tr).trace) :
    ∃ free_mem, env.fscanf_free = some free_mem
      ∧ free_mem_insufficient env.size_t free_mem (YAJL_GET_INTEGER ls) = false := by
  unfold download_phase at h
  split at h
  · simp [hnot] at h
  · split at h
    · simp [hnot] at h
    · rename_i free_mem hfree
      split at h
      · simp [hnot] at h
      · rename_i hins
        exact ⟨free_mem, hfree, by simpa using hins⟩

/-- The same for a run that starts at the local inspection. -/
theorem local_phase_fopen (env : Env) (lv ls lurl lm : YajlVal) (av : Option YajlVal)
    (tr : List Event) (hnot : Event.fopen_w ∉ tr)
    (h : Event.fopen_w ∈ (local_phase env lv ls lurl lm av tr).trace) :
    ∃ free_mem, env.fscanf_free = some free_mem
      ∧ free_mem_insufficient env.size_t free_mem (YAJL_GET_INTEGER ls) = false := by
  unfold local_phase at h
  repeat' split at h
  all_goals first
    | exact download_phase_fopen env lv ls lurl lm _ _ (by simp [hnot]) h
    | simp [hnot] at h

/-- The same for a run that starts at the claim check. -/
theorem claim_phase_fopen (env : Env) (lv ls lurl lm : YajlVal)
    (tr : List Event) (hnot : Event.fopen_w ∉ tr)
    (h : Event.fopen_w ∈ (claim_phase env lv ls lurl lm tr).trace) :
    ∃ free_mem, env.fscanf_free = some free_mem
      ∧ free_mem_insufficient env.size_t free_mem (YAJL_GET_INTEGER ls) = false := by
  unfold claim_phase at h
  repeat' split at h
  all_goals first
    | exact local_phase_fopen env lv ls lurl lm _ _ hnot h
    | exact absurd h hnot

/-- The branch of lines 408-417. -/
theorem download_phase_insufficient (env : Env) (lv ls lurl lm : YajlVal) (d : String)
    (tr : List Event) (free_mem : Nat) (hpo : env.popen_free_ok = true)
    (hfree : env.fscanf_free = some free_mem)
    (hins : free_mem_insufficient env.size_t free_mem (YAJL_GET_INTEGER ls) = true) :
    download_phase env lv ls lurl lm d tr =
      ⟨some (error_echo 500 env.xsrf
          "Insufficient free memory to download update file. Restarting the router will likely solve this problem."
          lv ls lm .available),
        tr ++ [.popen .FREE_COMMAND,
          .syslog .LOG_ERR "Insufficient memory to download the update.", .pclose]⟩ := by
  unfold download_phase
  simp only [hpo, hfree, hins, Bool.true_eq_false, if_false, if_true]

/-- A run from the local inspection that reaches the free-memory command with too little memory. -/
theorem local_phase_insufficient (env : Env) (lv ls lurl lm : YajlVal)
    (av : Option YajlVal) (tr : List Event) (free_mem : Nat)
    (hnot : Event.popen .FREE_COMMAND ∉ tr) (hnot2 : Event.fopen_w ∉ tr)
    (hpo : env.popen_free_ok = true)
    (hfree : env.fscanf_free = some free_mem)
    (hins : free_mem_insufficient env.size_t free_mem (YAJL_GET_INTEGER ls) = true)
    (h : Event.popen .FREE_COMMAND ∈ (local_phase env lv ls lurl lm av tr).trace) :
    (local_phase env lv ls lurl lm av tr).response =
        some (error_echo 500 env.xsrf
          "Insufficient free memory to download update file. Restarting the router will likely solve this problem."
          lv ls lm .available)
      ∧ Event.fopen_w ∉ (local_phase env lv ls lurl lm av tr).trace := by
  revert h
  unfold local_phase
  repeat' split
  all_goals
    intro h
    first
    | (simp [hnot] at h)
    | (rw [download_phase_insufficient env lv ls lurl lm _ _ free_mem hpo hfree hins]
       simp [hnot2])

/-- A run from the claim check that reaches the free-memory command with too little memory. -/
theorem claim_phase_insufficient (env : Env) (lv ls lurl lm : YajlVal)
    (tr : List Event) (free_mem : Nat)
    (hnot : Event.popen .FREE_COMMAND ∉ tr) (hnot2 : Event.fopen_w ∉ tr)
    (hpo : env.popen_free_ok = true)
    (hfree : env.fscanf_free = some free_mem)
    (hins : free_mem_insufficient env.size_t free_mem (YAJL_GET_INTEGER ls) = true)
    (h : Event.popen .FREE_COMMAND ∈ (claim_phase env lv ls lurl lm tr).trace) :
    (claim_phase env lv ls lurl lm tr).response =
        some (error_echo 500 env.xsrf
          "Insufficient free memory to download update file. Restarting the router will likely solve this problem."
          lv ls lm .available)
      ∧ Event.fopen_w ∉ (claim_phase env lv ls lurl lm tr).trace := by
  revert h
  unfold claim_phase
  repeat' split
  all_goals
    intro h
    first
    | exact absurd h hnot
    | exact local_phase_insufficient env lv ls lurl lm _ _ free_mem hnot hnot2 hpo hfree hins h

/-- C5 (amended). For a manifest size `s` with `s + 2097152` in the range of
`long long`: the handler opens the update file for download only if
`free_mem * 1024`, as computed in `size_t`, is at least `s + 2097152` (equality
suffices); and whenever a request reaches the free-memory command, reads `free_mem`
and that product is below `s + 2097152`, the answer is the insufficient-memory error
with the manifest's fields and the update file is never opened for writing, so a
file that was absent stays absent. Both hold for either width of `size_t`, for
negative `s` and for products that wrap. -/
theorem download_needs_headroom (env : Env) (m : Manifest)
    (hm : read_manifest env = some m)
    (hnew : 0 < env.version_compare (some m.version))
    (hlo : -(2 ^ 63) ≤ m.size) (hhi : m.size + 2097152 < 2 ^ 63) :
    (Event.fopen_w ∈ (post_update env).trace →
        ∃ free_mem, env.fscanf_free = some free_mem
          ∧ m.size + 2097152 ≤ ((free_mem * 1024 % 2 ^ env.size_t.bits : Nat) : Int))
      ∧ (∀ free_mem, Event.popen .FREE_COMMAND ∈ (post_update env).trace →
          env.popen_free_ok = true → env.fscanf_free = some free_mem →
          ((free_mem * 1024 % 2 ^ env.size_t.bits : Nat) : Int) < m.size + 2097152 →
          (post_update env).response =
              some { status := 500, xsrf := env.xsrf,
                     errors := ["Insufficient free memory to download update file. Restarting the router will likely solve this problem."],
                     version := some m.version, size := some m.size, md5 := some m.md5,
                     update := some .available, rebooting := false }
            ∧ Event.fopen_w ∉ (post_update env).trace) := by
  obtain ⟨lv, ls, lurl, lm, h1, h2, _, h4, hp⟩ := post_update_of_manifest env m hm hnew
  rw [hp]
  constructor
  · intro h
    obtain ⟨free_mem, hf, hi⟩ := claim_phase_fopen env lv ls lurl lm _ (by simp) h
    rw [h2] at hi
    exact ⟨free_mem, hf, insufficient_false _ _ _ hlo hhi hi⟩
  · intro free_mem h hpo hf hlt
    have hi := insufficient_true env.size_t free_mem m.size hlo hhi hlt
    rw [← h2] at hi
    have := claim_phase_insufficient env lv ls lurl lm _ free_mem (by simp) (by simp) hpo hf hi h
    rw [error_echo_eq m lv ls lm _ _ _ _ h1 h2 h4] at this
    exact this

set_option maxRecDepth 100000 in
/-- With 1024 KiB free the 4 MiB update is refused and the file is not opened. -/
theorem download_needs_headroom_witness :
    (post_update env_low_memory).response =
        some { status := 500, xsrf := env_low_memory.xsrf,
               errors := ["Insufficient free memory to download update file. Restarting the router will likely solve this problem."],
               version := some sample_manifest.version, size := some sample_manifest.size,
               md5 := some sample_manifest.md5,
               update := some .available, rebooting := false }
      ∧ Event.fopen_w ∉ (post_update env_low_memory).trace :=
  (download_needs_headroom env_low_memory sample_manifest (by decide) (by decide)
    (by decide) (by decide)).2 1024 (by decide) (by rfl) (by rfl) (by decide)

set_option maxRecDepth 100000 in
/-- C5 (as stated) fails at the boundary: with 6144 KiB free, `free_mem * 1024`
equals the manifest size plus 2097152, so free memory does not exceed that sum, yet
the download is attempted. -/
theorem download_attempted_at_equality :
    read_manifest env_boundary_memory = some sample_manifest
      ∧ 0 < env_boundary_memory.version_compare (some sample_manifest.version)
      ∧ env_boundary_memory.fscanf_free = some 6144
      ∧ ¬ (sample_manifest.size + 2097152 < (6144 : Int) * 1024)
      ∧ Event.fopen_w ∈ (post_update env_boundary_memory).trace
      ∧ Event.curl_perform "https://www.whoisonmywifi.net/hw/wiomw-2.1.bin"
          ∈ (post_update env_boundary_memory).trace := by
  decide

/-! ## The download and its verification (lines 418-488) -/

/-- A run from the local inspection that opens the update file went through `download_phase`. -/
theorem local_phase_reaches_download (env : Env) (lv ls lurl lm : YajlVal)
    (av : Option YajlVal) (tr : List Event) (hnot : Event.fopen_w ∉ tr)
    (h : Event.fopen_w ∈ (local_phase env lv ls lurl lm av tr).trace) :
    ∃ d tr2, local_phase env lv ls lurl lm av tr = download_phase env lv ls lurl lm d tr2
      ∧ Event.fopen_w ∉ tr2 ∧ YAJL_GET_STRING lm = some d := by
  revert h
  unfold local_phase
  repeat' split
  all_goals
    intro h
    first
    | (simp [hnot] at h)
    | exact ⟨_, _, rfl, by simp [hnot], by assumption⟩

/-- A run from the claim check that opens the update file went through `download_phase`. -/
theorem claim_phase_reaches_download (env : Env) (lv ls lurl lm : YajlVal)
    (tr : List Event) (hnot : Event.fopen_w ∉ tr)
    (h : Event.fopen_w ∈ (claim_phase env lv ls lurl lm tr).trace) :
    ∃ d tr2, claim_phase env lv ls lurl lm tr = download_phase env lv ls lurl lm d tr2
      ∧ Event.fopen_w ∉ tr2 ∧ YAJL_GET_STRING lm = some d := by
  revert h
  unfold claim_phase
  repeat' split
  all_goals
    intro h
    first
    | exact absurd h hnot
    | exact local_phase_reaches_download env lv ls lurl lm _ _ hnot h

/-- What a download phase that opens the update file has read before. -/
theorem download_phase_passed (env : Env) (lv ls lurl lm : YajlVal) (d : String)
    (tr : List Event) (hnot : Event.fopen_w ∉ tr)
    (h : Event.fopen_w ∈ (download_phase env lv ls lurl lm d tr).trace) :
    env.popen_free_ok = true ∧ ∃ free_mem, env.fscanf_free = some free_mem
      ∧ free_mem_insufficient env.size_t free_mem (YAJL_GET_INTEGER ls) = false := by
  unfold download_phase at h
  split at h
  · simp [hnot] at h
  · rename_i hpo
    split at h
    · simp [hnot] at h
    · rename_i free_mem hfree
      split at h
      · simp [hnot] at h
      · rename_i hins
        exact ⟨by simpa using hpo, free_mem, hfree, by simpa using hins⟩

/-- Every call of `get_update_file` opens the update file for writing. -/
theorem fopen_w_mem_get_update_file (env : Env) (url : Option String) :
    Event.fopen_w ∈ (get_update_file env url).2 := by
  unfold get_update_file
  repeat' split
  all_goals simp

/-- The verification of a fetched update file (lines 427-488). -/
theorem download_phase_fetched (env : Env) (lv ls lurl lm : YajlVal) (d : String)
    (tr dl : List Event) (free_mem : Nat)
    (hpo : env.popen_free_ok = true) (hfree : env.fscanf_free = some free_mem)
    (hins : free_mem_insufficient env.size_t free_mem (YAJL_GET_INTEGER ls) = false)
    (hdl : get_update_file env (YAJL_GET_STRING lurl) = (none, dl)) :
    (∀ st_size, env.stat_new = .ok st_size → st_size ≠ YAJL_GET_INTEGER ls →
        download_phase env lv ls lurl lm d tr =
          ⟨some (error_echo 500 env.xsrf "Downloaded update file was the wrong size."
              lv ls lm .available),
            tr ++ [.popen .FREE_COMMAND] ++ dl ++ [.stat, .remove, .pclose]⟩)
      ∧ (∀ hash, env.stat_new = .ok (YAJL_GET_INTEGER ls) → env.pclose_free = 0 →
          env.popen_md5_new_ok = true → fgets 33 env.md5_new_output = some hash →
          download_phase env lv ls lurl lm d tr =
            if d ≠ hash then
              ⟨some (error_echo 500 env.xsrf
                  "Downloaded update file did not have the correct md5." lv ls lm
                  .available),
                tr ++ [.popen .FREE_COMMAND] ++ dl ++
                  [.stat, .pclose, .popen .MD5_COMMAND, .remove, .pclose]⟩
            else
              ⟨some (ready_response env.xsrf lv ls lm),
                tr ++ [.popen .FREE_COMMAND] ++ dl ++
                  [.stat, .pclose, .popen .MD5_COMMAND, .pclose]⟩) := by
  constructor
  · intro st_size hst hne
    unfold download_phase
    simp only [hpo, hfree, hins, hdl, hst, hne, Bool.true_eq_false, Bool.false_eq_true,
      if_false, if_true, ne_eq, not_false_eq_true]
  · intro hash hst hpc hpm hfg
    unfold download_phase
    simp only [hpo, hfree, hins, hdl, hst, hpc, hpm, hfg, Bool.true_eq_false,
      Bool.false_eq_true, if_false, ne_eq, not_true_eq_false]

/-- A `ready` answer after a download requires the size and md5 checks to pass. -/
theorem download_phase_ready (env : Env) (lv ls lurl lm : YajlVal) (d : String)
    (tr : List Event) (r : Response)
    (h : (download_phase env lv ls lurl lm d tr).response = some r)
    (hr : r.update = some .ready) :
    env.stat_new = .ok (YAJL_GET_INTEGER ls) ∧ env.pclose_free = 0
      ∧ env.popen_md5_new_ok = true ∧ fgets 33 env.md5_new_output = some d := by
  revert h
  unfold download_phase
  repeat' split
  all_goals
    intro h
    simp only [Option.some.injEq] at h
    subst h
    first
    | (simp [error_echo] at hr)
    | simp_all

/-- No call of `get_update_file` runs a shell command. -/
theorem popen_not_mem_get_update_file (env : Env) (url : Option String) (c : Command) :
    Event.popen c ∉ (get_update_file env url).2 := by
  unfold get_update_file
  repeat' split
  all_goals simp

/-- With no update file on disk the local inspection falls through to the download. -/
theorem local_phase_absent (env : Env) (lv ls lurl lm : YajlVal) (d : String)
    (av : Option YajlVal) (tr : List Event) (h4 : YAJL_GET_STRING lm = some d)
    (hstat : env.stat_old = .fail ENOENT) :
    local_phase env lv ls lurl lm av tr
      = download_phase env lv ls lurl lm d (tr ++ [.stat]) := by
  unfold local_phase
  simp only [h4, hstat, ne_eq, not_true_eq_false, if_false]

/-- The download phase answers `ready` or a 500 error tagged `available`. -/
theorem download_phase_response (env : Env) (lv ls lurl lm : YajlVal) (d : String)
    (tr : List Event) :
    ∃ r, (download_phase env lv ls lurl lm d tr).response = some r
      ∧ (r = ready_response env.xsrf lv ls lm
          ∨ ∃ msg, r = error_echo 500 env.xsrf msg lv ls lm .available) := by
  unfold download_phase
  repeat' split
  all_goals first
    | exact ⟨_, rfl, Or.inl rfl⟩
    | exact ⟨_, rfl, Or.inr ⟨_, rfl⟩⟩

/-- C7 (amended). After a download that reports success: if the re-stat gives a size
other than the manifest's, or the size is right, closing the pipe of the free-memory
command reports status 0, the md5 command can be started and the first 32 characters
it prints differ from the manifest's md5, the handler calls `remove` on the file
after having written it and answers a 500 error that carries the manifest's fields
with `update:"available"`; an answer tagged `ready` after a download implies that the
re-stat size and the recomputed md5 both equal the manifest's; and whenever the
re-stat size differs, or the size is right and what the md5 command prints differs,
the answer is such a 500 error (never `ready` or `complete`), whether or not the
file is removed. -/
theorem download_mismatch_deleted (env : Env) (m : Manifest)
    (hm : read_manifest env = some m)
    (hnew : 0 < env.version_compare (some m.version)) :
    (Event.fopen_w ∈ (post_update env).trace →
        (get_update_file env (some m.url)).1 = none →
        ((∃ st_size, env.stat_new = .ok st_size ∧ st_size ≠ m.size)
          ∨ (env.stat_new = .ok m.size ∧ env.pclose_free = 0
              ∧ env.popen_md5_new_ok = true
              ∧ ∃ hash, fgets 33 env.md5_new_output = some hash ∧ hash ≠ m.md5)) →
        (∃ msg, (post_update env).response =
            some { status := 500, xsrf := env.xsrf, errors := [msg],
                   version := some m.version, size := some m.size, md5 := some m.md5,
                   update := some .available, rebooting := false })
          ∧ ∃ pre post, (post_update env).trace = pre ++ Event.remove :: post
              ∧ Event.fopen_w ∈ pre)
      ∧ (∀ r, Event.fopen_w ∈ (post_update env).trace →
          (post_update env).response = some r → r.update = some .ready →
          env.stat_new = .ok m.size ∧ fgets 33 env.md5_new_output = some m.md5)
      ∧ (Event.fopen_w ∈ (post_update env).trace →
          (get_update_file env (some m.url)).1 = none →
          ((∃ st_size, env.stat_new = .ok st_size ∧ st_size ≠ m.size)
            ∨ (env.stat_new = .ok m.size
                ∧ ∃ hash, fgets 33 env.md5_new_output = some hash ∧ hash ≠ m.md5)) →
          ∃ msg, (post_update env).response =
            some { status := 500, xsrf := env.xsrf, errors := [msg],
                   version := some m.version, size := some m.size, md5 := some m.md5,
                   update := some .available, rebooting := false }) := by
  obtain ⟨lv, ls, lurl, lm, h1, h2, h3, h4, hp⟩ := post_update_of_manifest env m hm hnew
  rw [hp]
  refine ⟨?_, ?_, ?_⟩
  · intro hin hdl hbad
    obtain ⟨d, tr2, hc, hnot, hd⟩ :=
      claim_phase_reaches_download env lv ls lurl lm _ (by simp) hin
    rw [h4] at hd
    simp only [Option.some.injEq] at hd
    subst hd
    rw [hc] at hin ⊢
    obtain ⟨hpo, free_mem, hfree, hins⟩ :=
      download_phase_passed env lv ls lurl lm _ tr2 hnot hin
    rw [← h3] at hdl
    have hdl2 : get_update_file env (YAJL_GET_STRING lurl)
        = (none, (get_update_file env (YAJL_GET_STRING lurl)).2) := Prod.ext hdl rfl
    have hf := download_phase_fetched env lv ls lurl lm m.md5 tr2 _ free_mem hpo hfree hins
      hdl2
    have hfo := fopen_w_mem_get_update_file env (YAJL_GET_STRING lurl)
    rcases hbad with ⟨st_size, hst, hne⟩ | ⟨hst, hpc, hpm, hash, hfg, hne⟩
    · rw [← h2] at hne
      rw [hf.1 st_size hst hne, error_echo_eq m lv ls lm _ _ _ _ h1 h2 h4]
      refine ⟨⟨_, rfl⟩, tr2 ++ [.popen .FREE_COMMAND]
        ++ (get_update_file env (YAJL_GET_STRING lurl)).2 ++ [.stat], [.pclose], ?_, ?_⟩
      · simp
      · simp [hfo]
    · rw [← h2] at hst
      rw [hf.2 hash hst hpc hpm hfg, if_pos (Ne.symm hne),
        error_echo_eq m lv ls lm _ _ _ _ h1 h2 h4]
      refine ⟨⟨_, rfl⟩, tr2 ++ [.popen .FREE_COMMAND]
        ++ (get_update_file env (YAJL_GET_STRING lurl)).2
        ++ [.stat, .pclose, .popen .MD5_COMMAND], [.pclose], ?_, ?_⟩
      · simp
      · simp [hfo]
  · intro r hin hr hready
    obtain ⟨d, tr2, hc, _, hd⟩ :=
      claim_phase_reaches_download env lv ls lurl lm _ (by simp) hin
    rw [h4] at hd
    simp only [Option.some.injEq] at hd
    subst hd
    rw [hc] at hr
    obtain ⟨hst, _, _, hfg⟩ := download_phase_ready env lv ls lurl lm _ tr2 r hr hready
    rw [h2] at hst
    exact ⟨hst, hfg⟩
  · intro hin _ hbad
    obtain ⟨d, tr2, hc, _, hd⟩ :=
      claim_phase_reaches_download env lv ls lurl lm _ (by simp) hin
    rw [h4] at hd
    simp only [Option.some.injEq] at hd
    subst hd
    rw [hc]
    obtain ⟨r, hr, hcase⟩ := download_phase_response env lv ls lurl lm m.md5 tr2
    rcases hcase with hready | ⟨msg, herr⟩
    · exfalso
      have hupd : r.update = some .ready := by rw [hready]; rfl
      obtain ⟨hst, _, _, hfg⟩ := download_phase_ready env lv ls lurl lm _ tr2 r hr hupd
      rw [h2] at hst
      rcases hbad with ⟨st_size, hs1, hne⟩ | ⟨_, hash, hf1, hne⟩
      · rw [hst] at hs1
        simp only [StatRes.ok.injEq] at hs1
        exact hne hs1.symm
      · rw [hfg] at hf1
        simp only [Option.some.injEq] at hf1
        exact hne hf1.symm
    · rw [hr, herr, error_echo_eq m lv ls lm _ _ _ _ h1 h2 h4]
      exact ⟨msg, rfl⟩

set_option maxRecDepth 100000 in
/-- A downloaded file with another md5 is removed and an error is answered. -/
theorem download_mismatch_deleted_witness :
    (∃ msg, (post_update env_download_wrong_md5).response =
        some { status := 500, xsrf := env_download_wrong_md5.xsrf, errors := [msg],
               version := some sample_manifest.version, size := some sample_manifest.size,
               md5 := some sample_manifest.md5,
               update := some .available, rebooting := false })
      ∧ ∃ pre post, (post_update env_download_wrong_md5).trace = pre ++ Event.remove :: post
          ∧ Event.fopen_w ∈ pre :=
  (download_mismatch_deleted env_download_wrong_md5 sample_manifest (by decide)
    (by decide)).1 (by decide) (by rfl)
    (Or.inr ⟨by rfl, by rfl, by rfl, "ffffffffffffffffffffffffffffffff", by decide,
      by decide⟩)

set_option maxRecDepth 100000 in
/-- C7 (as stated) fails: the download succeeds, the new file has the manifest's
size and another md5, and closing the pipe of the free-memory command reports 1;
the handler answers the 500 error of lines 448-458 and never calls `remove`. -/
theorem download_wrong_md5_not_deleted :
    read_manifest env_download_wrong_md5_pclose_fails = some sample_manifest
      ∧ 0 < env_download_wrong_md5_pclose_fails.version_compare
          (some sample_manifest.version)
      ∧ Event.fopen_w ∈ (post_update env_download_wrong_md5_pclose_fails).trace
      ∧ (get_update_file env_download_wrong_md5_pclose_fails
          (some sample_manifest.url)).1 = none
      ∧ env_download_wrong_md5_pclose_fails.stat_new = .ok sample_manifest.size
      ∧ fgets 33 env_download_wrong_md5_pclose_fails.md5_new_output
          = some "ffffffffffffffffffffffffffffffff"
      ∧ "ffffffffffffffffffffffffffffffff" ≠ sample_manifest.md5
      ∧ Event.remove ∉ (post_update env_download_wrong_md5_pclose_fails).trace
      ∧ (post_update env_download_wrong_md5_pclose_fails).response =
          some (sample_manifest.error 500 "token"
            "Error while reading the downloaded update file." .available) := by
  decide

/-! ## The manifest entry (lines 207-250, 489-496) -/

/-- C8 (amended). For a fetched manifest that parses to an object: if the model's
entry has no `version` string, the handler answers the 500 error "Error while
reading update version number for device."; if the version is present and compares
newer and `size` (number), `url` (string) or `md5` (string) is missing, it answers
the 500 error "Error while reading update file information."; if the version is
present and does not compare newer, `size`, `url` and `md5` are not read and the
answer is `none`. So an incomplete entry never yields `ready` or `complete`. -/
theorem incomplete_entry_outcome (env : Env) (sui_model : String) (h : data_holder)
    (tr : List Event) (latest_yajl : YajlVal)
    (hu : env.uci_model = some sui_model)
    (hf : get_latest_json env = .holder h tr)
    (hp : env.yajl_tree_parse (String.mk h.data) = some latest_yajl)
    (ho : YAJL_IS_OBJECT latest_yajl = true) :
    (yajl_tree_get (some latest_yajl) [sui_model, "version"] .yajl_t_string = none →
        post_update env =
          ⟨some { status := 500, xsrf := env.xsrf,
                  errors := ["Error while reading update version number for device."],
                  version := none, size := none, md5 := none, update := none,
                  rebooting := false },
            tr ++ [.syslog .LOG_ERR
              "Unable to retrieve update version number from latest.json."]⟩)
      ∧ (∀ lv, yajl_tree_get (some latest_yajl) [sui_model, "version"] .yajl_t_string
            = some lv →
          0 < env.version_compare (YAJL_GET_STRING lv) →
          (yajl_tree_get (some latest_yajl) [sui_model, "size"] .yajl_t_number = none
            ∨ yajl_tree_get (some latest_yajl) [sui_model, "url"] .yajl_t_string = none
            ∨ yajl_tree_get (some latest_yajl) [sui_model, "md5"] .yajl_t_string = none) →
          post_update env =
            ⟨some { status := 500, xsrf := env.xsrf,
                    errors := ["Error while reading update file information."],
                    version := none, size := none, md5 := none, update := none,
                    rebooting := false },
              tr ++ [.syslog .LOG_ERR
                "Unable to retrieve update file info from latest.json."]⟩)
      ∧ (∀ lv, yajl_tree_get (some latest_yajl) [sui_model, "version"] .yajl_t_string
            = some lv →
          ¬ 0 < env.version_compare (YAJL_GET_STRING lv) →
          post_update env =
            ⟨some { status := 200, xsrf := env.xsrf, errors := [], version := none,
                    size := none, md5 := none, update := some .none,
                    rebooting := false }, tr⟩) := by
  refine ⟨?_, ?_, ?_⟩
  · intro hv
    unfold post_update
    simp only [hu, hf, hp, ho, hv, Bool.true_eq_false, if_false]
    rfl
  · intro lv hv hnew hmiss
    unfold post_update
    simp only [hu, hf, hp, ho, hv, Bool.true_eq_false, if_false, gt_iff_lt, hnew, if_true]
    unfold update_available
    rcases hmiss with hs | hs | hs
    · simp only [hs]
      rfl
    · simp only [hs]
      split <;> rfl
    · simp only [hs]
      split
      · rfl
      · split <;> rfl
  · intro lv hv hold
    unfold post_update
    simp only [hu, hf, hp, ho, hv, Bool.true_eq_false, if_false, gt_iff_lt, hold]
    rfl

set_option maxRecDepth 100000 in
/-- A newer entry without `size` yields the file-information error. -/
theorem incomplete_entry_outcome_witness :
    post_update env_new_incomplete =
      ⟨some { status := 500, xsrf := env_new_incomplete.xsrf,
              errors := ["Error while reading update file information."],
              version := none, size := none, md5 := none, update := none,
              rebooting := false },
        [.curl_perform LATEST_JSON_URL] ++ [.syslog .LOG_ERR
          "Unable to retrieve update file info from latest.json."]⟩ :=
  (incomplete_entry_outcome env_new_incomplete "wiomw-router"
    { offset := 34, data := new_incomplete_text.data } [.curl_perform LATEST_JSON_URL]
    new_incomplete_json (by rfl) (by decide) (by rfl) (by rfl)).2.1
    (.string "2.1") (by rfl) (by decide) (Or.inl (by rfl))

set_option maxRecDepth 100000 in
/-- C8 (as stated) fails: the entry lacks `size`, `url` and `md5`, its version is
not newer than the running one, and the answer is `none`, not a MissingField error. -/
theorem incomplete_entry_reports_none :
    env_old_incomplete.yajl_tree_parse old_incomplete_text = some old_incomplete_json
      ∧ (yajl_tree_get (some old_incomplete_json) ["wiomw-router", "size"]
          .yajl_t_number).isSome = false
      ∧ (yajl_tree_get (some old_incomplete_json) ["wiomw-router", "url"]
          .yajl_t_string).isSome = false
      ∧ (yajl_tree_get (some old_incomplete_json) ["wiomw-router", "md5"]
          .yajl_t_string).isSome = false
      ∧ post_update env_old_incomplete =
          ⟨some { status := 200, xsrf := "token", errors := [], version := none,
                  size := none, md5 := none, update := some .none, rebooting := false },
            [.curl_perform LATEST_JSON_URL]⟩ :=
  ⟨by rfl, by decide, by decide, by decide, by decide⟩

/-! ## The manifest fetch (lines 65-137) -/

/-- For comparison with C9: when the body was stored (the holder is not `NULL`) and
the status is 400 or more, the handler reports "Error while contacting update
server." at `LOG_WARNING`. -/
theorem server_error_when_body_stored (env : Env) (h : data_holder)
    (hd : deliver env.json_alloc_ok 0 env.json_chunks none = .done (some h))
    (hp : env.json_perform = 0) (hg : env.json_getinfo = 0)
    (hc : 400 ≤ env.json_http_code) :
    get_latest_json env =
      .null { status := 500, xsrf := env.xsrf,
              errors := ["Error while contacting update server."],
              version := none, size := none, md5 := none, update := none,
              rebooting := false }
        [.curl_perform LATEST_JSON_URL,
         .syslog .LOG_WARNING "Unable to get latest.json, got HTTP code: %lu"] := by
  unfold get_latest_json
  rw [hd]
  simp only [get_latest_json_after, hp, hg, and_self, if_true, ge_iff_le, hc]
  rfl

/-- C9 (the code at the failing input). When the transfer of `latest.json`
completes without the write callback ever being called (an empty body), the handler
reports the out-of-memory message at `LOG_EMERG`, whatever the HTTP status, although
no allocation was attempted. -/
theorem empty_body_reported_as_out_of_memory (env : Env)
    (hc : env.json_chunks = []) (hp : env.json_perform = 0) (hg : env.json_getinfo = 0) :
    get_latest_json env =
      .null { status := 500, xsrf := env.xsrf,
              errors := ["The router is out of memory and needs to be restarted immediately."],
              version := none, size := none, md5 := none, update := none,
              rebooting := false }
        [.curl_perform LATEST_JSON_URL, .syslog .LOG_EMERG "Unable to allocate memory"] := by
  unfold get_latest_json
  rw [hc]
  simp only [deliver, get_latest_json_after, hp, hg, and_self, if_true]
  rfl

set_option maxRecDepth 100000 in
/-- A 404 answer with an empty body yields the out-of-memory message. -/
theorem empty_body_reported_as_out_of_memory_witness :
    env_404_empty_body.json_http_code = 404
      ∧ get_latest_json env_404_empty_body =
        .null { status := 500, xsrf := env_404_empty_body.xsrf,
                errors := ["The router is out of memory and needs to be restarted immediately."],
                version := none, size := none, md5 := none, update := none,
                rebooting := false }
          [.curl_perform LATEST_JSON_URL, .syslog .LOG_EMERG "Unable to allocate memory"] :=
  ⟨by rfl, empty_body_reported_as_out_of_memory env_404_empty_body (by rfl) (by rfl)
    (by rfl)⟩

/-! ## Error answers echo the manifest -/

/-- Every error answered by the download phase echoes the three nodes. -/
theorem download_phase_errors (env : Env) (lv ls lurl lm : YajlVal) (d : String)
    (tr : List Event) (r : Response)
    (h : (download_phase env lv ls lurl lm d tr).response = some r)
    (he : r.errors ≠ []) :
    r.version = some (printf_s (YAJL_GET_STRING lv)) ∧ r.size = some (YAJL_GET_INTEGER ls)
      ∧ r.md5 = some (printf_s (YAJL_GET_STRING lm))
      ∧ (r.update = some .available ∨ r.update = some .ready) := by
  revert h
  unfold download_phase
  repeat' split
  all_goals
    intro h
    simp only [Option.some.injEq] at h
    subst h
    first
    | exact absurd rfl he
    | simp [error_echo]

/-- Every error answered from the local inspection on echoes the three nodes. -/
theorem local_phase_errors (env : Env) (lv ls lurl lm : YajlVal) (d : String)
    (av : Option YajlVal) (tr : List Event) (r : Response)
    (h4 : YAJL_GET_STRING lm = some d)
    (h : (local_phase env lv ls lurl lm av tr).response = some r)
    (he : r.errors ≠ []) :
    r.version = some (printf_s (YAJL_GET_STRING lv)) ∧ r.size = some (YAJL_GET_INTEGER ls)
      ∧ r.md5 = some (printf_s (YAJL_GET_STRING lm))
      ∧ (r.update = some .available ∨ r.update = some .ready) := by
  revert h
  unfold local_phase
  split
  · rename_i hnone
    rw [h4] at hnone
    cases hnone
  · repeat' split
    all_goals
      intro h
      first
      | exact download_phase_errors env lv ls lurl lm _ _ r h he
      | (simp only [Option.some.injEq] at h
         subst h
         first
         | exact absurd rfl he
         | simp [error_echo])

/-- Every error answered from the claim check on echoes the three nodes. -/
theorem claim_phase_errors (env : Env) (lv ls lurl lm : YajlVal) (d : String)
    (tr : List Event) (r : Response)
    (h4 : YAJL_GET_STRING lm = some d)
    (h : (claim_phase env lv ls lurl lm tr).response = some r)
    (he : r.errors ≠ []) :
    r.version = some (printf_s (YAJL_GET_STRING lv)) ∧ r.size = some (YAJL_GET_INTEGER ls)
      ∧ r.md5 = some (printf_s (YAJL_GET_STRING lm))
      ∧ (r.update = some .available ∨ r.update = some .ready) := by
  revert h
  unfold claim_phase
  repeat' split
  all_goals
    intro h
    first
    | exact local_phase_errors env lv ls lurl lm d _ _ r h4 h he
    | (simp only [Option.some.injEq] at h
       subst h
       simp [error_echo])

/-- C10 (amended). Once version, size, url and md5 of a newer manifest entry have
all been read, every answer with an `errors` key carries the manifest's version,
size and md5 unchanged, and its `update` tag is `available` or `ready`. -/
theorem errors_echo_manifest (env : Env) (m : Manifest) (r : Response)
    (hm : read_manifest env = some m)
    (hnew : 0 < env.version_compare (some m.version))
    (hr : (post_update env).response = some r) (he : r.errors ≠ []) :
    r.version = some m.version ∧ r.size = some m.size ∧ r.md5 = some m.md5
      ∧ (r.update = some .available ∨ r.update = some .ready) := by
  obtain ⟨lv, ls, lurl, lm, h1, h2, _, h4, hp⟩ := post_update_of_manifest env m hm hnew
  rw [hp] at hr
  have := claim_phase_errors env lv ls lurl lm m.md5 _ r h4 hr he
  simpa [h1, h2, h4, printf_s] using this


set_option maxRecDepth 100000 in
/-- The error answered when `popen(FREE_COMMAND)` fails echoes the manifest. -/
theorem errors_echo_manifest_witness :
    (sample_manifest.error 500 "token" "Error while checking for available memory."
        .available).version = some sample_manifest.version
      ∧ (sample_manifest.error 500 "token" "Error while checking for available memory."
        .available).size = some sample_manifest.size
      ∧ (sample_manifest.error 500 "token" "Error while checking for available memory."
        .available).md5 = some sample_manifest.md5
      ∧ ((sample_manifest.error 500 "token" "Error while checking for available memory."
          .available).update = some .available
        ∨ (sample_manifest.error 500 "token" "Error while checking for available memory."
          .available).update = some .ready) :=
  errors_echo_manifest env_free_fails sample_manifest
    (sample_manifest.error 500 "token" "Error while checking for available memory."
      .available) (by decide) (by decide) (by decide) (by decide)

set_option maxRecDepth 100000 in
/-- C10 (as stated) fails: the entry's version "2.1" has been read and compared
newer, `size` is missing, and the error answer carries no `version`. -/
theorem missing_field_error_omits_version :
    env_new_incomplete.yajl_tree_parse new_incomplete_text = some new_incomplete_json
      ∧ (yajl_tree_get (some new_incomplete_json) ["wiomw-router", "version"]
          .yajl_t_string).map YAJL_GET_STRING = some (some "2.1")
      ∧ 0 < env_new_incomplete.version_compare (some "2.1")
      ∧ (post_update env_new_incomplete).response =
          some { status := 500, xsrf := "token",
                 errors := ["Error while reading update file information."],
                 version := none, size := none, md5 := none, update := none,
                 rebooting := false } :=
  ⟨by rfl, by decide, by decide, by decide⟩

/-! ## A stale or corrupt update file (lines 307-354) -/

/-- The nodes found for `env` are found for every environment with the same
configuration, fetch, parser and comparator. -/
theorem post_update_of_manifest_uniform (env : Env) (m : Manifest)
    (hm : read_manifest env = some m)
    (hnew : 0 < env.version_compare (some m.version)) :
    ∃ lv ls lurl lm, YAJL_GET_STRING lv = some m.version ∧ YAJL_GET_INTEGER ls = m.size ∧
      YAJL_GET_STRING lurl = some m.url ∧ YAJL_GET_STRING lm = some m.md5 ∧
      ∀ env2 : Env, env2.uci_model = env.uci_model →
        get_latest_json env2 = get_latest_json env →
        env2.yajl_tree_parse = env.yajl_tree_parse →
        env2.version_compare = env.version_compare →
        post_update env2 = claim_phase env2 lv ls lurl lm [.curl_perform LATEST_JSON_URL] := by
  unfold read_manifest at hm
  cases hu : env.uci_model with
  | none => simp [hu] at hm
  | some sui_model =>
    simp only [hu] at hm
    cases hf : get_latest_json env with
    | crash tr => simp [hf] at hm
    | null r tr => simp [hf] at hm
    | holder h tr =>
      have htr := get_latest_json_holder env h tr hf
      subst htr
      simp only [hf] at hm
      cases hp : env.yajl_tree_parse (String.mk h.data) with
      | none => simp [hp] at hm
      | some latest_yajl =>
        simp only [hp] at hm
        by_cases ho : YAJL_IS_OBJECT latest_yajl = false
        · simp [ho] at hm
        · rw [if_neg ho] at hm
          cases h1 : yajl_tree_get (some latest_yajl) [sui_model, "version"] .yajl_t_string with
          | none => simp [h1] at hm
          | some lv =>
            cases h2 : yajl_tree_get (some latest_yajl) [sui_model, "size"] .yajl_t_number with
            | none => simp [h1, h2] at hm
            | some ls =>
              cases h3 : yajl_tree_get (some latest_yajl) [sui_model, "url"] .yajl_t_string with
              | none => simp [h1, h2, h3] at hm
              | some lurl =>
                cases h4 : yajl_tree_get (some latest_yajl) [sui_model, "md5"]
                    .yajl_t_string with
                | none => simp [h1, h2, h3, h4] at hm
                | some lm =>
                  simp only [h1, h2, h3, h4] at hm
                  cases h5 : YAJL_GET_STRING lv with
                  | none => simp [h5] at hm
                  | some v =>
                    cases h6 : YAJL_GET_STRING lurl with
                    | none => simp [h5, h6] at hm
                    | some u =>
                      cases h7 : YAJL_GET_STRING lm with
                      | none => simp [h5, h6, h7] at hm
                      | some d =>
                        simp only [h5, h6, h7, Option.some.injEq] at hm
                        subst hm
                        refine ⟨lv, ls, lurl, lm, h5, rfl, h6, h7, ?_⟩
                        intro env2 e1 e2 e3 e4
                        simp only at hnew
                        unfold post_update
                        rw [e1, e2, e3, e4]
                        simp only [hu, hf, hp]
                        rw [if_neg ho]
                        simp only [h1, h5, hnew, gt_iff_lt, if_true, update_available, h2, h3,
                          h4]

/-- The download phase appends its operations to those performed before, and its
answer does not depend on them. -/
theorem download_phase_append (env : Env) (lv ls lurl lm : YajlVal) (d : String)
    (tr : List Event) :
    download_phase env lv ls lurl lm d tr =
      ⟨(download_phase env lv ls lurl lm d []).response,
        tr ++ (download_phase env lv ls lurl lm d []).trace⟩ := by
  unfold download_phase
  repeat' split
  all_goals simp_all

/-- The branch of lines 307-320: an old file of the wrong size. -/
theorem local_phase_stale (env : Env) (lv ls lurl lm : YajlVal) (d : String)
    (av : Option YajlVal) (tr : List Event) (st_size : Int)
    (h4 : YAJL_GET_STRING lm = some d)
    (hstat : env.stat_old = .ok st_size) (hne : st_size ≠ YAJL_GET_INTEGER ls) :
    local_phase env lv ls lurl lm av tr =
      if env.remove_old_ok = false then
        ⟨some (error_echo 500 env.xsrf "Error while reading the downloaded update file."
            lv ls lm .available),
          tr ++ [.stat,
            .syslog .LOG_WARNING
              "Size of previously downloaded update file is wrong, deleting it.",
            .remove,
            .syslog .LOG_ERR "Unable to remove the old incorrect size update file: %s"]⟩
      else
        download_phase env lv ls lurl lm d
          (tr ++ [.stat,
            .syslog .LOG_WARNING
              "Size of previously downloaded update file is wrong, deleting it.",
            .remove]) := by
  unfold local_phase
  simp only [h4, hstat, hne, ne_eq, not_false_eq_true, if_true]

/-- A run from the claim check that calls `stat` went through `local_phase`. -/
theorem claim_phase_reaches_local (env : Env) (lv ls lurl lm : YajlVal)
    (tr : List Event) (hnot : Event.stat ∉ tr)
    (h : Event.stat ∈ (claim_phase env lv ls lurl lm tr).trace) :
    ∃ av, claim_phase env lv ls lurl lm tr = local_phase env lv ls lurl lm av tr := by
  revert h
  unfold claim_phase
  repeat' split
  all_goals
    intro h
    first
    | exact absurd h hnot
    | exact ⟨_, rfl⟩

/-- The claim check does not depend on what the md5 command would say about the old
file when that file has the wrong size. -/
theorem claim_phase_stale_md5_irrelevant (env : Env) (lv ls lurl lm : YajlVal) (d : String)
    (tr : List Event) (st_size : Int) (out : String) (ok : Bool) (pc : Int)
    (h4 : YAJL_GET_STRING lm = some d)
    (hstat : env.stat_old = .ok st_size) (hne : st_size ≠ YAJL_GET_INTEGER ls) :
    claim_phase (with_old_md5 env out ok pc) lv ls lurl lm tr
      = claim_phase env lv ls lurl lm tr := by
  have key : ∀ av, local_phase (with_old_md5 env out ok pc) lv ls lurl lm av tr
      = local_phase env lv ls lurl lm av tr := by
    intro av
    rw [local_phase_stale env lv ls lurl lm d av tr st_size h4 hstat hne,
      local_phase_stale (with_old_md5 env out ok pc) lv ls lurl lm d av tr st_size h4 hstat
        hne]
    rfl
  unfold claim_phase
  simp only [key]
  rfl

/-- C11. When a request with a newer manifest reaches the first `stat` and the file
on disk has a size other than the manifest's, the whole run (answer and operations)
is the same whatever the md5 command would print for that file, whether it could be
started and whatever its pipe would report; the run starts with the manifest fetch,
the `stat`, the log line "Size of previously downloaded update file is wrong,
deleting it." and the `remove`, with no md5 command before the delete. -/
theorem stale_regardless_of_checksum (env : Env) (m : Manifest) (st_size : Int)
    (hm : read_manifest env = some m)
    (hnew : 0 < env.version_compare (some m.version))
    (hreach : Event.stat ∈ (post_update env).trace)
    (hstat : env.stat_old = .ok st_size) (hne : st_size ≠ m.size) :
    (∀ (out : String) (ok : Bool) (pc : Int),
        post_update (with_old_md5 env out ok pc) = post_update env)
      ∧ ∃ rest, (post_update env).trace =
          [.curl_perform LATEST_JSON_URL, .stat,
           .syslog .LOG_WARNING
             "Size of previously downloaded update file is wrong, deleting it.",
           .remove] ++ rest := by
  obtain ⟨lv, ls, lurl, lm, _, h2, _, h4, hp⟩ :=
    post_update_of_manifest_uniform env m hm hnew
  rw [← h2] at hne
  have hp0 := hp env rfl rfl rfl rfl
  constructor
  · intro out ok pc
    rw [hp (with_old_md5 env out ok pc) rfl rfl rfl rfl, hp0]
    exact claim_phase_stale_md5_irrelevant env lv ls lurl lm m.md5 _ st_size out ok pc h4
      hstat hne
  · rw [hp0] at hreach ⊢
    obtain ⟨av, hc⟩ := claim_phase_reaches_local env lv ls lurl lm _ (by simp) hreach
    rw [hc, local_phase_stale env lv ls lurl lm m.md5 av _ st_size h4 hstat hne]
    by_cases hr : env.remove_old_ok = false
    · rw [if_pos hr]
      exact ⟨[.syslog .LOG_ERR "Unable to remove the old incorrect size update file: %s"],
        rfl⟩
    · rw [if_neg hr, download_phase_append]
      exact ⟨(download_phase env lv ls lurl lm m.md5 []).trace, rfl⟩

set_option maxRecDepth 100000 in
/-- The 100-byte file of `env_stale` is removed without its md5 being consulted. -/
theorem stale_regardless_of_checksum_witness :
    (∀ (out : String) (ok : Bool) (pc : Int),
        post_update (with_old_md5 env_stale out ok pc) = post_update env_stale)
      ∧ ∃ rest, (post_update env_stale).trace =
          [.curl_perform LATEST_JSON_URL, .stat,
           .syslog .LOG_WARNING
             "Size of previously downloaded update file is wrong, deleting it.",
           .remove] ++ rest :=
  stale_regardless_of_checksum env_stale sample_manifest 100 (by decide) (by decide)
    (by decide) (by rfl) (by decide)

/-- The branch of lines 341-354: an old file of the right size and another md5. -/
theorem local_phase_corrupt (env : Env) (lv ls lurl lm : YajlVal) (d hash : String)
    (av : Option YajlVal) (tr : List Event)
    (h4 : YAJL_GET_STRING lm = some d)
    (hstat : env.stat_old = .ok (YAJL_GET_INTEGER ls))
    (hpo : env.popen_md5_old_ok = true)
    (hfg : fgets 33 env.md5_old_output = some hash) (hne : hash ≠ d) :
    local_phase env lv ls lurl lm av tr =
      if env.remove_old_ok = false then
        ⟨some (error_echo 500 env.xsrf "Error while reading the downloaded update file."
            lv ls lm .available),
          tr ++ [.stat, .popen .MD5_COMMAND,
            .syslog .LOG_WARNING
              "MD5 of previously downloaded update file is wrong, deleting it.",
            .remove,
            .syslog .LOG_ERR "Unable to remove the old incorrect md5 update file: %s"]⟩
      else
        download_phase env lv ls lurl lm d
          (tr ++ [.stat, .popen .MD5_COMMAND,
            .syslog .LOG_WARNING
              "MD5 of previously downloaded update file is wrong, deleting it.",
            .remove]) := by
  unfold local_phase
  simp only [h4, hstat, hpo, hfg, Ne.symm hne, ne_eq, not_true_eq_false, not_false_eq_true,
    if_true, if_false, Bool.true_eq_false]

/-- A run from the claim check that calls `stat` went through `local_phase`, and so
does the run of every environment with the same request. -/
theorem claim_phase_reaches_local_uniform (env : Env) (lv ls lurl lm : YajlVal)
    (tr : List Event) (hnot : Event.stat ∉ tr)
    (h : Event.stat ∈ (claim_phase env lv ls lurl lm tr).trace) :
    ∃ av, ∀ env2 : Env, env2.api_yajl = env.api_yajl →
      claim_phase env2 lv ls lurl lm tr = local_phase env2 lv ls lurl lm av tr := by
  cases hv : yajl_tree_get env.api_yajl ["version"] .yajl_t_string with
  | none =>
    refine ⟨none, fun env2 e => ?_⟩
    unfold claim_phase
    rw [e]
    simp only [hv]
  | some av =>
    refine ⟨some av, fun env2 e => ?_⟩
    unfold claim_phase at h ⊢
    rw [e]
    simp only [hv] at h ⊢
    repeat' split at h
    all_goals first
      | exact absurd h hnot
      | simp [*]

/-- C12. When a request with a newer manifest reaches the first `stat` and the file
on disk is stale (another size) or corrupt (the manifest's size, and the first 32
characters the md5 command prints differ from the manifest's md5): if `remove`
fails, the answer is a 500 error with the manifest's fields and neither the
free-memory command nor the download is started; if `remove` succeeds, the
operations after the `remove` and the answer are those of the same request run with
no update file on disk (`stat` failing with `ENOENT`). -/
theorem stale_or_corrupt_replaced (env : Env) (m : Manifest)
    (hm : read_manifest env = some m)
    (hnew : 0 < env.version_compare (some m.version))
    (hreach : Event.stat ∈ (post_update env).trace)
    (hbad : (∃ st_size, env.stat_old = .ok st_size ∧ st_size ≠ m.size)
      ∨ (env.stat_old = .ok m.size ∧ env.popen_md5_old_ok = true
          ∧ ∃ hash, fgets 33 env.md5_old_output = some hash ∧ hash ≠ m.md5)) :
    (env.remove_old_ok = false →
        (∃ msg, (post_update env).response =
            some { status := 500, xsrf := env.xsrf, errors := [msg],
                   version := some m.version, size := some m.size, md5 := some m.md5,
                   update := some .available, rebooting := false })
          ∧ Event.popen .FREE_COMMAND ∉ (post_update env).trace
          ∧ Event.fopen_w ∉ (post_update env).trace)
      ∧ (env.remove_old_ok = true →
          ∃ pre rest, (post_update env).trace
              = [.curl_perform LATEST_JSON_URL] ++ pre ++ [.remove] ++ rest
            ∧ Event.remove ∉ pre ∧ Event.popen .FREE_COMMAND ∉ pre
            ∧ (post_update (without_artifact env)).trace
              = [.curl_perform LATEST_JSON_URL, .stat] ++ rest
            ∧ (post_update env).response = (post_update (without_artifact env)).response) := by
  obtain ⟨lv, ls, lurl, lm, h1, h2, _, h4, hp⟩ :=
    post_update_of_manifest_uniform env m hm hnew
  have hp0 := hp env rfl rfl rfl rfl
  have hp1 := hp (without_artifact env) rfl rfl rfl rfl
  rw [hp0] at hreach
  obtain ⟨av, hc⟩ := claim_phase_reaches_local_uniform env lv ls lurl lm _ (by simp) hreach
  have hc0 := hc env rfl
  have hc1 := hc (without_artifact env) rfl
  have habs : local_phase (without_artifact env) lv ls lurl lm av
        [.curl_perform LATEST_JSON_URL]
      = download_phase env lv ls lurl lm m.md5 ([.curl_perform LATEST_JSON_URL] ++ [.stat]) :=
    local_phase_absent (without_artifact env) lv ls lurl lm m.md5 av _ h4 rfl
  rw [hp0, hp1, hc0, hc1, habs]
  have hloc : ∃ pre err, Event.remove ∉ pre ∧ Event.popen .FREE_COMMAND ∉ pre
      ∧ Event.fopen_w ∉ pre
      ∧ local_phase env lv ls lurl lm av [.curl_perform LATEST_JSON_URL] =
        if env.remove_old_ok = false then
          ⟨some (error_echo 500 env.xsrf "Error while reading the downloaded update file."
              lv ls lm .available),
            [.curl_perform LATEST_JSON_URL] ++ pre ++ [.remove, .syslog .LOG_ERR err]⟩
        else
          download_phase env lv ls lurl lm m.md5
            ([.curl_perform LATEST_JSON_URL] ++ pre ++ [.remove]) := by
    rcases hbad with ⟨st_size, hstat, hne⟩ | ⟨hstat, hpo, hash, hfg, hne⟩
    · rw [← h2] at hne
      refine ⟨[.stat, .syslog .LOG_WARNING
          "Size of previously downloaded update file is wrong, deleting it."],
        "Unable to remove the old incorrect size update file: %s", by simp, by simp,
        by simp, ?_⟩
      rw [local_phase_stale env lv ls lurl lm m.md5 av _ st_size h4 hstat hne]
      rfl
    · rw [← h2] at hstat
      refine ⟨[.stat, .popen .MD5_COMMAND, .syslog .LOG_WARNING
          "MD5 of previously downloaded update file is wrong, deleting it."],
        "Unable to remove the old incorrect md5 update file: %s", by simp, by simp,
        by simp, ?_⟩
      rw [local_phase_corrupt env lv ls lurl lm m.md5 hash av _ h4 hstat hpo hfg hne]
      rfl
  obtain ⟨pre, err, hpre1, hpre2, hpre3, hl⟩ := hloc
  rw [hl]
  constructor
  · intro hr
    rw [if_pos hr, error_echo_eq m lv ls lm _ _ _ _ h1 h2 h4]
    refine ⟨⟨_, rfl⟩, ?_, ?_⟩
    · simp [hpre2]
    · simp [hpre3]
  · intro hr
    rw [if_neg (by simp [hr]), download_phase_append env lv ls lurl lm m.md5
        ([Event.curl_perform LATEST_JSON_URL] ++ pre ++ [Event.remove]),
      download_phase_append env lv ls lurl lm m.md5
        ([Event.curl_perform LATEST_JSON_URL] ++ [Event.stat])]
    exact ⟨pre, (download_phase env lv ls lurl lm m.md5 []).trace, rfl, hpre1, hpre2, rfl,
      rfl⟩

set_option maxRecDepth 100000 in
/-- The corrupt file of `env_corrupt` is removed and the run continues as with no
file. -/
theorem stale_or_corrupt_replaced_witness :
    ∃ pre rest, (post_update env_corrupt).trace
        = [.curl_perform LATEST_JSON_URL] ++ pre ++ [.remove] ++ rest
      ∧ Event.remove ∉ pre ∧ Event.popen .FREE_COMMAND ∉ pre
      ∧ (post_update (without_artifact env_corrupt)).trace
        = [.curl_perform LATEST_JSON_URL, .stat] ++ rest
      ∧ (post_update env_corrupt).response
        = (post_update (without_artifact env_corrupt)).response :=
  (stale_or_corrupt_replaced env_corrupt sample_manifest (by decide) (by decide)
    (by decide)
    (Or.inr ⟨by rfl, by rfl, "ffffffffffffffffffffffffffffffff", by decide,
      by decide⟩)).2 (by rfl)

/-! ## When the upgrade command runs -/

/-- A fetch that fails returns an answer without `update` key and runs no command. -/
theorem get_latest_json_null (env : Env) (r : Response) (tr : List Event)
    (h : get_latest_json env = .null r tr) :
    r.update = none ∧ Event.fopen_w ∉ tr ∧ ∀ c, Event.popen c ∉ tr := by
  unfold get_latest_json get_latest_json_after at h
  repeat' split at h
  all_goals
    simp only [FetchResult.null.injEq, reduceCtorEq] at h
  all_goals
    obtain ⟨h1, h2⟩ := h
    subst h1 h2
    simp [error_plain]

/-- A fetch that dies has run no command. -/
theorem get_latest_json_crash (env : Env) (tr : List Event)
    (h : get_latest_json env = .crash tr) :
    Event.fopen_w ∉ tr ∧ ∀ c, Event.popen c ∉ tr := by
  unfold get_latest_json get_latest_json_after at h
  repeat' split at h
  all_goals
    simp only [FetchResult.crash.injEq, reduceCtorEq] at h
  all_goals
    subst h
    simp

/-- The download phase never starts the upgrade and never answers `complete`. -/
theorem download_phase_no_upgrade (env : Env) (lv ls lurl lm : YajlVal) (d : String)
    (tr : List Event) (hnot : Event.popen .SYSUPGRADE_COMMAND ∉ tr) :
    Event.popen .SYSUPGRADE_COMMAND ∉ (download_phase env lv ls lurl lm d tr).trace
      ∧ ∀ r, (download_phase env lv ls lurl lm d tr).response = some r →
          r.update ≠ some .complete := by
  have hdl := popen_not_mem_get_update_file env (YAJL_GET_STRING lurl) .SYSUPGRADE_COMMAND
  revert hdl
  unfold download_phase
  generalize get_update_file env (YAJL_GET_STRING lurl) = p
  obtain ⟨x, dl⟩ := p
  intro hdl
  repeat' split
  all_goals simp_all [error_echo, ready_response]

/-- A run from the local inspection that starts the upgrade or answers `complete`
found the old file with the manifest's size and md5, had a `version` in the request
and closed the md5 pipe with status 0; it performs five operations. -/
theorem local_phase_upgrade (env : Env) (lv ls lurl lm : YajlVal) (d : String)
    (av : Option YajlVal) (tr : List Event)
    (h4 : YAJL_GET_STRING lm = some d)
    (hnot : Event.popen .SYSUPGRADE_COMMAND ∉ tr)
    (h : Event.popen .SYSUPGRADE_COMMAND ∈ (local_phase env lv ls lurl lm av tr).trace
      ∨ ∃ r, (local_phase env lv ls lurl lm av tr).response = some r
          ∧ r.update = some .complete) :
    av.isSome = true ∧ env.stat_old = .ok (YAJL_GET_INTEGER ls)
      ∧ env.popen_md5_old_ok = true ∧ fgets 33 env.md5_old_output = some d
      ∧ env.pclose_md5_old = 0
      ∧ ∃ last, (local_phase env lv ls lurl lm av tr).trace
          = tr ++ [.stat, .popen .MD5_COMMAND, .pclose, .popen .SYSUPGRADE_COMMAND, last]
        ∧ last ≠ .popen .SYSUPGRADE_COMMAND ∧ last ≠ .fopen_w := by
  revert h
  unfold local_phase
  split
  · rename_i hnone
    rw [h4] at hnone
    cases hnone
  · rename_i d2 hd2
    rw [h4] at hd2
    simp only [Option.some.injEq] at hd2
    subst hd2
    repeat' split
    all_goals
      intro h
      first
      | (rcases h with h | ⟨r, hr, hc⟩
         · exact absurd h
             (download_phase_no_upgrade env lv ls lurl lm d _ (by simp [hnot])).1
         · exact absurd hc
             ((download_phase_no_upgrade env lv ls lurl lm d _ (by simp [hnot])).2 r hr))
      | (exfalso
         simp [hnot, error_echo, ready_response] at h
         done)
      | (refine ⟨by assumption, ?_, ?_, ?_, ?_, _, rfl, by simp, by simp⟩ <;> simp_all)

/-- A node found by `yajl_tree_get` with a type other than `yajl_t_any` has that type. -/
theorem yajl_tree_get_type (path : List String) (t : yajl_type) (ht : t ≠ .yajl_t_any) :
    ∀ (n : Option YajlVal) (v : YajlVal), yajl_tree_get n path t = some v → v.type = t := by
  induction path with
  | nil =>
    intro n v h
    cases n with
    | none => simp [yajl_tree_get] at h
    | some v0 =>
      simp only [yajl_tree_get] at h
      split at h
      · simp at h
      · rename_i hc
        simp only [Option.some.injEq] at h
        subst h
        by_contra hne
        exact hc ⟨ht, fun e => hne e.symm⟩
  | cons key rest ih =>
    intro n v h
    cases n with
    | none => simp [yajl_tree_get] at h
    | some v0 =>
      cases v0 <;> simp only [yajl_tree_get, reduceCtorEq] at h
      split at h
      · simp at h
      · exact ih _ v h

/-- A node found with type `yajl_t_string` has a string. -/
theorem yajl_tree_get_string (n : Option YajlVal) (path : List String) (v : YajlVal)
    (h : yajl_tree_get n path .yajl_t_string = some v) : ∃ s, YAJL_GET_STRING v = some s := by
  have ht := yajl_tree_get_type path .yajl_t_string (by decide) n v h
  cases v <;> simp [YajlVal.type] at ht
  exact ⟨_, rfl⟩

/-- A run from the claim check that starts the upgrade or answers `complete` had a
claim equal to the manifest nodes. -/
theorem claim_phase_upgrade (env : Env) (lv ls lurl lm : YajlVal) (d : String)
    (tr : List Event)
    (h4 : YAJL_GET_STRING lm = some d)
    (hnot : Event.popen .SYSUPGRADE_COMMAND ∉ tr)
    (h : Event.popen .SYSUPGRADE_COMMAND ∈ (claim_phase env lv ls lurl lm tr).trace
      ∨ ∃ r, (claim_phase env lv ls lurl lm tr).response = some r
          ∧ r.update = some .complete) :
    ∃ av sz amd, yajl_tree_get env.api_yajl ["version"] .yajl_t_string = some av
      ∧ YAJL_GET_STRING av = YAJL_GET_STRING lv
      ∧ yajl_tree_get env.api_yajl ["size"] .yajl_t_number = some sz
      ∧ YAJL_GET_INTEGER sz = YAJL_GET_INTEGER ls
      ∧ yajl_tree_get env.api_yajl ["md5"] .yajl_t_string = some amd
      ∧ YAJL_GET_STRING amd = YAJL_GET_STRING lm
      ∧ claim_phase env lv ls lurl lm tr = local_phase env lv ls lurl lm (some av) tr := by
  revert h
  unfold claim_phase
  cases hv : yajl_tree_get env.api_yajl ["version"] .yajl_t_string with
  | none =>
    intro h
    have := (local_phase_upgrade env lv ls lurl lm d none tr h4 hnot h).1
    simp at this
  | some av =>
    cases hs : yajl_tree_get env.api_yajl ["size"] .yajl_t_number with
    | none =>
      intro h
      simp [hnot, error_echo] at h
    | some sz =>
      cases hd : yajl_tree_get env.api_yajl ["md5"] .yajl_t_string with
      | none =>
        intro h
        simp [hnot, error_echo] at h
      | some amd =>
        simp only
        split
        · rename_i a b c e ha hb hc he
          split
          · intro h
            simp [hnot, error_echo] at h
          · rename_i hcond
            intro _
            simp only [not_or, ne_eq, not_not] at hcond
            refine ⟨av, sz, amd, rfl, ?_, rfl, hcond.2.1.symm, rfl, ?_, rfl⟩
            · rw [ha, hb, hcond.1]
            · rw [hc, he, hcond.2.2]
        · intro h
          simp [hnot, error_echo] at h

/-- A run that does not get a newer, complete manifest entry runs no command and does
not answer `complete`. -/
theorem post_update_front (env : Env) :
    (∃ m, read_manifest env = some m ∧ 0 < env.version_compare (some m.version))
      ∨ (Event.fopen_w ∉ (post_update env).trace
          ∧ (∀ c, Event.popen c ∉ (post_update env).trace)
          ∧ ∀ r, (post_update env).response = some r → r.update ≠ some .complete) := by
  unfold read_manifest post_update
  cases hu : env.uci_model with
  | none => right; simp [error_plain]
  | some sui_model =>
    simp only
    cases hf : get_latest_json env with
    | crash tr =>
      right
      have := get_latest_json_crash env tr hf
      simp [this.1, this.2]
    | null r tr =>
      right
      have := get_latest_json_null env r tr hf
      simp [this.1, this.2.1, this.2.2]
    | holder h tr =>
      have htr := get_latest_json_holder env h tr hf
      subst htr
      simp only
      cases hp : env.yajl_tree_parse (String.mk h.data) with
      | none => right; simp [error_plain]
      | some latest_yajl =>
        simp only
        by_cases ho : YAJL_IS_OBJECT latest_yajl = false
        · right; simp [ho, error_plain]
        · rw [if_neg ho, if_neg ho]
          cases h1 : yajl_tree_get (some latest_yajl) [sui_model, "version"] .yajl_t_string with
          | none => right; simp [error_plain]
          | some lv =>
            simp only
            by_cases hnew : env.version_compare (YAJL_GET_STRING lv) > 0
            · rw [if_pos hnew]
              unfold update_available
              cases h2 : yajl_tree_get (some latest_yajl) [sui_model, "size"]
                  .yajl_t_number with
              | none => right; simp [error_plain]
              | some ls =>
                cases h3 : yajl_tree_get (some latest_yajl) [sui_model, "url"]
                    .yajl_t_string with
                | none => right; simp [error_plain]
                | some lurl =>
                  cases h4 : yajl_tree_get (some latest_yajl) [sui_model, "md5"]
                      .yajl_t_string with
                  | none => right; simp [error_plain]
                  | some lm =>
                    left
                    obtain ⟨v, hv⟩ := yajl_tree_get_string _ _ _ h1
                    obtain ⟨u, hu2⟩ := yajl_tree_get_string _ _ _ h3
                    obtain ⟨d, hd⟩ := yajl_tree_get_string _ _ _ h4
                    rw [hv] at hnew
                    exact ⟨⟨v, YAJL_GET_INTEGER ls, u, d⟩, by simp [hv, hu2, hd], hnew⟩
            · rw [if_neg hnew]
              right
              simp [none_response]

/-- C13. For every request: if the handler starts the upgrade command or answers
`complete`, then a manifest entry was read whose version compared newer, the request
carried `version`, `size` and `md5` equal to the manifest's, the first `stat` found
a file of the manifest's size, the first 32 characters printed by the md5 command
equalled the manifest's md5, and the upgrade command was indeed started; no run both
opens the update file for download and starts the upgrade command; and the upgrade
command is started at most once. -/
theorem upgrade_only_when_authorized (env : Env) :
    ((Event.popen .SYSUPGRADE_COMMAND ∈ (post_update env).trace
        ∨ ∃ r, (post_update env).response = some r ∧ r.update = some .complete) →
      ∃ m av sz amd, read_manifest env = some m
        ∧ 0 < env.version_compare (some m.version)
        ∧ yajl_tree_get env.api_yajl ["version"] .yajl_t_string = some av
        ∧ YAJL_GET_STRING av = some m.version
        ∧ yajl_tree_get env.api_yajl ["size"] .yajl_t_number = some sz
        ∧ YAJL_GET_INTEGER sz = m.size
        ∧ yajl_tree_get env.api_yajl ["md5"] .yajl_t_string = some amd
        ∧ YAJL_GET_STRING amd = some m.md5
        ∧ env.stat_old = .ok m.size
        ∧ fgets 33 env.md5_old_output = some m.md5
        ∧ Event.popen .SYSUPGRADE_COMMAND ∈ (post_update env).trace)
      ∧ ¬ (Event.fopen_w ∈ (post_update env).trace
            ∧ Event.popen .SYSUPGRADE_COMMAND ∈ (post_update env).trace)
      ∧ (post_update env).trace.count (.popen .SYSUPGRADE_COMMAND) ≤ 1 := by
  rcases post_update_front env with ⟨m, hm, hnew⟩ | ⟨_, hpo, hco⟩
  · obtain ⟨lv, ls, lurl, lm, h1, h2, _, h4, hp⟩ := post_update_of_manifest env m hm hnew
    by_cases htrig : Event.popen .SYSUPGRADE_COMMAND ∈ (post_update env).trace
        ∨ ∃ r, (post_update env).response = some r ∧ r.update = some .complete
    · have htrig2 := htrig
      rw [hp] at htrig2
      obtain ⟨av, sz, amd, hv, hve, hs, hse, hd, hde, hc⟩ :=
        claim_phase_upgrade env lv ls lurl lm m.md5 _ h4 (by simp) htrig2
      rw [hc] at htrig2
      obtain ⟨_, hst, _, hfg, _, last, htr, hl1, hl2⟩ :=
        local_phase_upgrade env lv ls lurl lm m.md5 (some av) _ h4 (by simp) htrig2
      have htrace : (post_update env).trace = [.curl_perform LATEST_JSON_URL] ++
          [.stat, .popen .MD5_COMMAND, .pclose, .popen .SYSUPGRADE_COMMAND, last] := by
        rw [hp, hc, htr]
      rw [h1] at hve
      rw [h2] at hse hst
      rw [h4] at hde
      refine ⟨fun _ => ⟨m, av, sz, amd, hm, hnew, hv, hve, hs, hse, hd, hde, hst, hfg, ?_⟩,
        ?_, ?_⟩
      · rw [htrace]; simp
      · rw [htrace]
        intro hboth
        simp at hboth
        exact hl2 hboth.symm
      · rw [htrace]
        simp [List.count_cons, hl1]
    · have hno : Event.popen .SYSUPGRADE_COMMAND ∉ (post_update env).trace :=
        fun h => htrig (Or.inl h)
      refine ⟨fun h => absurd h htrig, fun h => hno h.2, ?_⟩
      rw [List.count_eq_zero_of_not_mem hno]
      exact Nat.zero_le 1
  · have hno := hpo .SYSUPGRADE_COMMAND
    refine ⟨?_, fun h => hno h.2, ?_⟩
    · rintro (h | ⟨r, hr, hc⟩)
      · exact absurd h hno
      · exact absurd hc (hco r hr)
    · rw [List.count_eq_zero_of_not_mem hno]
      exact Nat.zero_le 1

set_option maxRecDepth 100000 in
/-- The run of `env_valid_claimed` starts the upgrade, and the conditions hold. -/
theorem upgrade_only_when_authorized_witness :
    ∃ m av sz amd, read_manifest env_valid_claimed = some m
      ∧ 0 < env_valid_claimed.version_compare (some m.version)
      ∧ yajl_tree_get env_valid_claimed.api_yajl ["version"] .yajl_t_string = some av
      ∧ YAJL_GET_STRING av = some m.version
      ∧ yajl_tree_get env_valid_claimed.api_yajl ["size"] .yajl_t_number = some sz
      ∧ YAJL_GET_INTEGER sz = m.size
      ∧ yajl_tree_get env_valid_claimed.api_yajl ["md5"] .yajl_t_string = some amd
      ∧ YAJL_GET_STRING amd = some m.md5
      ∧ env_valid_claimed.stat_old = .ok m.size
      ∧ fgets 33 env_valid_claimed.md5_old_output = some m.md5
      ∧ Event.popen .SYSUPGRADE_COMMAND ∈ (post_update env_valid_claimed).trace :=
  (upgrade_only_when_authorized env_valid_claimed).1 (Or.inl (by decide))

end Wiomw
